import Mathlib

/-!
# luma-bridge: local cache store, cart store and cart mutation service

A shallow embedding of `src/scripts/storage/util.js`, `src/scripts/minicart/util.js`,
`src/scripts/minicart/api.js` and `src/scripts/minicart/cart.js`.

Conventions of the embedding:

* Browser state (local storage, the cookie string, dispatched events, the cart store
  singleton, the busy toggle) is one explicit record `World`; every function that has an
  effect takes the world and returns the next one.
* Code that may throw returns `Except Unit α`. A stateful function that may throw returns
  `Except World World`: `.ok w` is normal completion in world `w`, `.error w` is an
  exception that leaves the world at `w`.
* Browser built-ins whose behaviour is not part of this repository (`JSON.parse`,
  `JSON.stringify`, `Date`, the cookie jar behind `document.cookie`) are the fields of a
  `Platform` record that the functions take as a parameter.
* The clock is the parameter `now` (milliseconds since the epoch), the value that
  `new Date().getTime()` yields while the function runs.
* Outcomes of network calls are parameters: the function is given what the awaited
  promise settles to.
* Subscriber callbacks are code of the callers. A callback is a handle (a number); the
  parameter `throwsOn` tells whether the callback with a given handle throws on a given
  argument, and every invocation is recorded in the world.
* Dispatching the storage event is recorded in the world; the listeners of the event
  are not part of the model.
* The GraphQL response of the cart mutation is typed after the `cartQuery` fragment of
  cart.js; the cache in local storage is owned by another system and is an arbitrary
  text.
* The quantities of the GraphQL response are IEEE 754 doubles (`Double`); their
  addition is the platform's, with its rounding, and no law of arithmetic is assumed
  of it.
-/

namespace LumaBridge

/-! ## JavaScript values -/

/-- Values of the JavaScript heap as far as this program handles them: what `JSON.parse`
can yield, plus `undefined`. Objects are lists of own properties in insertion order.
Numbers are exact rationals (rounding of doubles is not modelled). -/
inductive JSVal where
  | undefined
  | null
  | bool (b : Bool)
  | num (q : ℚ)
  | str (s : String)
  | arr (xs : List JSVal)
  | obj (ps : List (String × JSVal))

namespace JSVal

/-- The object literal `{}`. -/
def emptyObject : JSVal := obj []

/-- ToBoolean: `undefined`, `null`, `false`, `0` and `""` are falsy, everything else
(every array and object included) is truthy. -/
def truthy : JSVal → Bool
  | undefined => false
  | null => false
  | bool b => b
  | num q => decide (q ≠ 0)
  | str s => decide (s ≠ "")
  | arr _ => true
  | obj _ => true

/-- Whether the value is `null` or `undefined`. -/
def nullish : JSVal → Bool
  | undefined => true
  | null => true
  | _ => false

end JSVal

/-- First value stored under `k` in a list of own properties. -/
def propLookup (k : String) : List (String × JSVal) → Option JSVal
  | [] => none
  | (k', v) :: ps => if k' = k then some v else propLookup k ps

/-- The definition of the own data property `k` with value `v` in a list of own
properties: an existing property keeps its place and takes the new value, a new one is
added at the end. It is what `Object.fromEntries` does for every name and what the
assignment `o[k] = v` does on an ordinary object for every name that does not reach a
setter of the prototype; for the assignment in general see `assignOwn`. -/
def propSet (k : String) (v : JSVal) : List (String × JSVal) → List (String × JSVal)
  | [] => [(k, v)]
  | (k', v') :: ps => if k' = k then (k, v) :: ps else (k', v') :: propSet k v ps

/-- Property read `x.k` (also `x[k]`) for the property names this program uses, none of
which is defined on a prototype: a `TypeError` on `null` and `undefined`, the own
property of an object, `undefined` otherwise. -/
def getProp (x : JSVal) (k : String) : Except Unit JSVal :=
  match x with
  | .undefined => .error ()
  | .null => .error ()
  | .obj ps => .ok ((propLookup k ps).getD .undefined)
  | _ => .ok .undefined

/-- The assignment `o[k] = v` on an ordinary object with own properties `ps` whose
prototype is `Object.prototype` or a value that `JSON.parse` made. The name `__proto__`
is an accessor of `Object.prototype`: unless the object has an own property of that
name, the assignment calls the setter, which changes the prototype and defines no own
property. Every other name defines or updates the own property. -/
def assignOwn (k : String) (v : JSVal) (ps : List (String × JSVal)) :
    List (String × JSVal) :=
  if k = "__proto__" && (propLookup k ps).isNone then ps else propSet k v ps

/-- Optional chaining `x?.k`: `undefined` when `x` is `null` or `undefined`. -/
def getPropOpt (x : JSVal) (k : String) : JSVal :=
  match x with
  | .obj ps => (propLookup k ps).getD .undefined
  | _ => .undefined

/-! ## Platform and world -/

/-- A number of the GraphQL response, an IEEE 754 double: not a number, an infinity,
the negative zero, or the finite double of value `q` (`finite 0` is the positive
zero). -/
inductive Double where
  | nan
  | posInf
  | negInf
  | negZero
  | finite (q : ℚ)
  deriving DecidableEq

/-- The comparison `a !== b` of two doubles: `NaN` differs from everything, itself
included, and the two zeros are equal. -/
def Double.strictNe : Double → Double → Bool
  | .nan, _ => true
  | _, .nan => true
  | .negZero, .finite q => decide (q ≠ 0)
  | .finite q, .negZero => decide (q ≠ 0)
  | a, b => decide (a ≠ b)

/-- Browser built-ins used by the program. `jsonParse` is `none` where `JSON.parse`
throws; `dateTime v` is `new Date(v).getTime()`: an error where the conversion of `v`
to a primitive throws a `TypeError` (an object whose own `toString` is not callable),
otherwise the time value, `none` standing for `NaN`; `addDouble a b` is the sum `a + b`
of two doubles, rounded as IEEE 754 prescribes;
`assignCookie jar s` is the cookie string after `document.cookie = s`;
`entriesOfString s` is `Object.entries(s)` for a string; `assignToArray xs k v` is the
outcome of `a[k] = v` on an array `a` with elements `xs`. -/
structure Platform where
  jsonParse : String → Option JSVal
  jsonStringify : JSVal → String
  dateTime : JSVal → Except Unit (Option Int)
  addDouble : Double → Double → Double
  toISOString : Int → String
  toUTCString : Int → String
  assignCookie : String → String → String
  entriesOfString : String → List (String × JSVal)
  assignToArray : List JSVal → String → JSVal → Except Unit JSVal

/-- A network request issued by the program. -/
inductive Request where
  | sectionLoad (sections : List String)
  | addProductsToCart (cartId : JSVal) (sku : String) (options : List String) (quantity : ℚ)

/-- A line item of the `cartQuery` fragment (cart.js, lines 13-63), with the fields the
program reads. -/
structure CartItem where
  uid : String
  sku : String
  quantity : Double

/-- A cart as the `cartQuery` fragment selects it. `items` is a nullable list of
nullable line items. -/
structure Cart where
  id : String
  items : Option (List (Option CartItem))
  total_quantity : Double

/-- Browser state the program reads and writes. `subscribers` holds the handles of the
callbacks registered with the cart store, `delivered` records every invocation of a
subscriber callback with its argument, oldest first; `loading` is the busy state set by
`waitForCart` and `releases` counts invocations of the release callback it returns;
`events` lists the keys of the dispatched storage events, `requests` the network
requests issued, `addedCarts` the carts logged by `addToCart` on success. -/
structure World where
  localStorage : List (String × String)
  cookie : String
  protocol : String
  events : List String
  requests : List Request
  cartId : JSVal
  subscribers : List Nat
  delivered : List (Nat × JSVal)
  loading : Bool
  releases : Nat
  addedCarts : List Cart

/-- The call `localStorage.getItem(k)`: `none` is JavaScript `null`. -/
def getItem (store : List (String × String)) (k : String) : Option String :=
  match store with
  | [] => none
  | (k', v) :: rest => if k' = k then some v else getItem rest k

/-- The call `localStorage.setItem(k, v)`. -/
def setItem (store : List (String × String)) (k v : String) : List (String × String) :=
  match store with
  | [] => [(k, v)]
  | (k', v') :: rest => if k' = k then (k, v) :: rest else (k', v') :: setItem rest k v

/-- The test `!x` on the result of `getItem`: true for `null` and for the empty string. -/
def itemFalsy : Option String → Bool
  | none => true
  | some s => decide (s = "")

/-- Index of the first occurrence of `needle` in the rest of the haystack, counted from
`i`, or `-1`. -/
def indexOfFrom (needle : List Char) : List Char → Nat → Int
  | [], i => if needle = [] then (i : Int) else -1
  | c :: cs, i =>
    if needle.isPrefixOf (c :: cs) then (i : Int) else indexOfFrom needle cs (i + 1)

/-- The method `hay.indexOf(needle)`. The program only compares the result with `-1`. -/
def indexOf (hay needle : String) : Int :=
  indexOfFrom needle.toList hay.toList 0

/-! ## storage/util.js -/

def COMMERCE_CACHE_TIMEOUT_KEY : String := "mage-cache-timeout"
def COMMERCE_CACHE_STORAGE_KEY : String := "mage-cache-storage"
def COMMERCE_CACHE_INVALIDATION_KEY : String := "mage-cache-storage-section-invalidation"
def COMMERCE_CACHE_SESSION_COOKIE : String := "mage-cache-sessid"

/-- Source function `isMagentoLocalStorageExpired` (storage/util.js, lines 12-35). The
`try` covers `JSON.parse` only: `new Date(cacheTimeoutDate)` is outside it, and its
`TypeError` leaves the function. A `NaN` time value makes the comparison false. The
subtraction of two time values is negative exactly when the first is the smaller one, so
the comparison is taken on integers. -/
def isMagentoLocalStorageExpired (P : Platform) (now : Int) (w : World) :
    Except Unit Bool :=
  let localMageCacheTimeout := getItem w.localStorage COMMERCE_CACHE_TIMEOUT_KEY
  if indexOf w.cookie (COMMERCE_CACHE_SESSION_COOKIE ++ "=true") = -1 then .ok true
  else if itemFalsy localMageCacheTimeout then .ok true
  else
    match P.jsonParse (localMageCacheTimeout.getD "") with
    | none => .ok true
    | some cacheTimeoutDate =>
      match P.dateTime cacheTimeoutDate with
      | .error e => .error e
      | .ok none => .ok false
      | .ok (some t) => .ok (decide (t - now < 0))

/-- Source function `getMagentoCache` (storage/util.js, lines 123-135). The call of
`isMagentoLocalStorageExpired` is outside the `try`, and only when the blob is truthy:
an exception of that call leaves `getMagentoCache`. -/
def getMagentoCache (P : Platform) (now : Int) (w : World) : Except Unit JSVal :=
  let magentoCache := getItem w.localStorage COMMERCE_CACHE_STORAGE_KEY
  if itemFalsy magentoCache then .ok JSVal.emptyObject
  else
    match isMagentoLocalStorageExpired P now w with
    | .error e => .error e
    | .ok true => .ok JSVal.emptyObject
    | .ok false =>
      match P.jsonParse (magentoCache.getD "") with
      | some v => .ok v
      | none => .ok JSVal.emptyObject

/-- Source function `isCommerceStatePristine` (storage/util.js, lines 154-159). -/
def isCommerceStatePristine (w : World) : Bool :=
  itemFalsy (getItem w.localStorage COMMERCE_CACHE_INVALIDATION_KEY)
    && itemFalsy (getItem w.localStorage COMMERCE_CACHE_STORAGE_KEY)
    && itemFalsy (getItem w.localStorage COMMERCE_CACHE_TIMEOUT_KEY)
    && decide (indexOf w.cookie COMMERCE_CACHE_SESSION_COOKIE = -1)

/-- The call `JSON.parse(x)` on the result of `getItem`: `null` is first converted to the
text `null`, which parses to `null`; `none` is a thrown `SyntaxError`. -/
def jsonParseItem (P : Platform) : Option String → Option JSVal
  | none => some .null
  | some s => P.jsonParse s

/-- The call `Object.entries(x)`: a `TypeError` on `null` and `undefined`, the own
properties of an object, the indexed elements of an array, nothing for a number or a
boolean. -/
def objectEntries (P : Platform) : JSVal → Except Unit (List (String × JSVal))
  | .undefined => .error ()
  | .null => .error ()
  | .bool _ => .ok []
  | .num _ => .ok []
  | .str s => .ok (P.entriesOfString s)
  | .arr xs => .ok (xs.enum.map (fun p => (toString p.1, p.2)))
  | .obj ps => .ok ps

/-- The call `Object.fromEntries(es)`. -/
def objectFromEntries (es : List (String × JSVal)) : JSVal :=
  .obj (es.foldl (fun acc p => propSet p.1 p.2 acc) [])

/-- The statement `target[k] = v` in strict mode (module code): a `TypeError` when the
target is a primitive. -/
def assignProp (P : Platform) (target : JSVal) (k : String) (v : JSVal) : Except Unit JSVal :=
  match target with
  | .obj ps => .ok (.obj (assignOwn k v ps))
  | .arr xs => P.assignToArray xs k v
  | _ => .error ()

/-- The loop `entries.forEach(([key, value]) => { target[key] = value; })`. -/
def assignAll (P : Platform) : JSVal → List (String × JSVal) → Except Unit JSVal
  | target, [] => .ok target
  | target, (k, v) :: es =>
    match assignProp P target k v with
    | .error e => .error e
    | .ok target1 => assignAll P target1 es

/-- Source function `removeMagentoCacheInvalidations` (storage/util.js, lines 69-87). -/
def removeMagentoCacheInvalidations (P : Platform) (invalidatedSections : List String)
    (w : World) : Except World World :=
  match jsonParseItem P (getItem w.localStorage COMMERCE_CACHE_INVALIDATION_KEY) with
  | none => .ok w
  | some invalidations =>
    match objectEntries P invalidations with
    | .error _ => .error w
    | .ok es =>
      let result := objectFromEntries
        (es.filter (fun p => if invalidatedSections.contains p.1 then false else true))
      let store1 := setItem w.localStorage COMMERCE_CACHE_INVALIDATION_KEY
        (P.jsonStringify result)
      .ok { w with localStorage := store1 }

/-- The comparison `value === true`. -/
def isTrue : JSVal → Bool
  | .bool b => b
  | _ => false

/-- Source function `isMagentoCacheInvalidated` (storage/util.js, lines 97-115). -/
def isMagentoCacheInvalidated (P : Platform) (sections : List String) (w : World) :
    Except Unit Bool :=
  let localMageCacheInvalidations := getItem w.localStorage COMMERCE_CACHE_INVALIDATION_KEY
  if itemFalsy localMageCacheInvalidations then .ok false
  else
    match P.jsonParse (localMageCacheInvalidations.getD "") with
    | none => .ok false
    | some invalidatedCaches =>
      match objectEntries P invalidatedCaches with
      | .error e => .error e
      | .ok es => .ok (es.any (fun p => isTrue p.2 && sections.contains p.1))

/-- What the awaited `fetch` and `result.json()` of `updateMagentoCacheSections` settle
to: `rejected` when `fetch` rejects (network failure, abort by the 10 s timer),
otherwise a response with its `ok` flag and the body as `result.json()` resolves it,
`none` when that promise rejects. -/
inductive FetchOutcome where
  | rejected
  | response (ok : Bool) (body : Option JSVal)

/-- The cookie text assigned to `document.cookie` at storage/util.js, line 198. -/
def sessionCookieText (P : Platform) (now : Int) (w : World) : String :=
  COMMERCE_CACHE_SESSION_COOKIE ++ "=true; path=/; expires="
    ++ P.toUTCString (now + 25 * 60000) ++ "; SameSite=Lax; "
    ++ (if w.protocol = "http:" then "" else "Secure")

/-- The local `magentoCache` of `updateMagentoCacheSections` after lines 199-205:
`JSON.parse(blob) || {}`, and `{}` when parsing throws. -/
def readCacheForMerge (P : Platform) (w : World) : JSVal :=
  match jsonParseItem P (getItem w.localStorage COMMERCE_CACHE_STORAGE_KEY) with
  | some v => if v.truthy then v else JSVal.emptyObject
  | none => JSVal.emptyObject

/-- The statements of `updateMagentoCacheSections` after a response has been read
(storage/util.js, lines 194-220): the freshness cookie is set, the response is merged
into the stored blob, invalidations of the requested sections are cleared, the blob and
the timeout are written and the storage event is dispatched. -/
def storeUpdatedSections (P : Platform) (now : Int) (sections : List String)
    (updatedSections : JSVal) (w : World) : Except World World :=
  let w1 := { w with cookie := P.assignCookie w.cookie (sessionCookieText P now w) }
  let magentoCache := readCacheForMerge P w1
  match objectEntries P updatedSections with
  | .error _ => .error w1
  | .ok es =>
    match assignAll P magentoCache es with
    | .error _ => .error w1
    | .ok merged =>
      match isMagentoCacheInvalidated P sections w1 with
      | .error _ => .error w1
      | .ok invalidated =>
        match (if invalidated then removeMagentoCacheInvalidations P sections w1
               else .ok w1) with
        | .error w2 => .error w2
        | .ok w2 =>
          let store1 := setItem w2.localStorage COMMERCE_CACHE_STORAGE_KEY
            (P.jsonStringify merged)
          let store2 := setItem store1 COMMERCE_CACHE_TIMEOUT_KEY
            (P.jsonStringify (.str (P.toISOString (now + 30 * 60000))))
          .ok { w2 with localStorage := store2,
                        events := w2.events ++ [COMMERCE_CACHE_STORAGE_KEY] }

/-- The world once the section request has been issued. -/
def requestSections (sections : List String) (w : World) : World :=
  { w with requests := w.requests ++ [Request.sectionLoad sections] }

/-- Source function `updateMagentoCacheSections` (storage/util.js, lines 167-221). The
request is issued; a rejected fetch, a response that is not ok and a body that cannot be
read leave through the `catch` clause or the `null` test of line 190. -/
def updateMagentoCacheSections (P : Platform) (now : Int) (sections : List String)
    (resp : FetchOutcome) (w : World) : Except World World :=
  match resp with
  | .rejected => .ok (requestSections sections w)
  | .response false _ => .ok (requestSections sections w)
  | .response true none => .ok (requestSections sections w)
  | .response true (some .null) => .ok (requestSections sections w)
  | .response true (some updatedSections) =>
    storeUpdatedSections P now sections updatedSections (requestSections sections w)

/-! ## minicart/util.js -/

/-- The call `x.map(f)`: a `TypeError` unless `x` is an array. -/
def arrayMap (f : JSVal → Except Unit JSVal) : JSVal → Except Unit JSVal
  | .arr xs => (xs.mapM f).map .arr
  | _ => .error ()

/-- The comparison `x === s` with a string literal `s`. -/
def strictEqStr (x : JSVal) (s : String) : Bool :=
  match x with
  | .str t => decide (t = s)
  | _ => false

/-- The arrow function of line 14: `{ label: option.label, values: option.value }`. -/
def bundleOption (option : JSVal) : Except Unit JSVal := do
  let label ← getProp option "label"
  let value ← getProp option "value"
  pure (.obj [("label", label), ("values", value)])

/-- The arrow function of line 18:
`{ option_label: option.label, value_label: option.value }`. -/
def configurableOption (option : JSVal) : Except Unit JSVal := do
  let label ← getProp option "label"
  let value ← getProp option "value"
  pure (.obj [("option_label", label), ("value_label", value)])

/-- The arrow function mapped over `localStorageCart.items` (minicart/util.js,
lines 13-46). -/
def transformItem (item : JSVal) : Except Unit JSVal := do
  let productType ← getProp item "product_type"
  let bundleOptions ←
    if strictEqStr productType "bundle" then
      (do let options ← getProp item "options"; arrayMap bundleOption options)
    else pure (JSVal.bool false)
  let configurableOptions ←
    if strictEqStr productType "configurable" then
      (do let options ← getProp item "options"; arrayMap configurableOption options)
    else pure (JSVal.bool false)
  let priceValue ← getProp item "product_price_value"
  let name ← getProp item "product_name"
  let sku ← getProp item "product_sku"
  let url ← getProp item "product_url"
  let image ← getProp item "product_image"
  let src ← getProp image "src"
  let qty ← getProp item "qty"
  let transformedItem : List (String × JSVal) :=
    [("prices", .obj [("price", .obj [("value", priceValue)])]),
     ("product", .obj [("name", name), ("sku", sku), ("url", url),
       ("thumbnail", .obj [("url", src)])]),
     ("quantity", qty)]
  if bundleOptions.truthy then
    pure (.obj (propSet "bundle_options" bundleOptions transformedItem))
  else if configurableOptions.truthy then
    pure (.obj (propSet "configurable_options" configurableOptions transformedItem))
  else pure (.obj transformedItem)

/-- Source function `transformCart` (minicart/util.js, lines 10-54). -/
def transformCart (localStorageCart : JSVal) : Except Unit JSVal := do
  let id ← getProp localStorageCart "data_id"
  let rawItems ← getProp localStorageCart "items"
  let items ← arrayMap transformItem rawItems
  let subtotal ← getProp localStorageCart "subtotalAmount"
  let count ← getProp localStorageCart "summary_count"
  pure (.obj [("id", id), ("items", items),
    ("prices", .obj [("subtotal_excluding_tax", .obj [("value", subtotal)])]),
    ("total_quantity", count)])

/-- Source function `getCartFromLocalStorage` (minicart/util.js, lines 63-66). -/
def getCartFromLocalStorage (P : Platform) (now : Int) (w : World) : Except Unit JSVal := do
  let magentoCache ← getMagentoCache P now w
  getProp magentoCache "cart"

/-- Source function `getCartIdFromLocalStorage` (minicart/util.js, lines 73-76). -/
def getCartIdFromLocalStorage (P : Platform) (now : Int) (w : World) : Except Unit JSVal := do
  let magentoCache ← getMagentoCache P now w
  let sideBySide ← getProp magentoCache "side-by-side"
  pure (getPropOpt sideBySide "cart_id")

/-- Source function `getLoggedInFromLocalStorage` (storage/util.js, lines 143-147). -/
def getLoggedInFromLocalStorage (P : Platform) (now : Int) (w : World) : Except Unit Bool := do
  let magentoCache ← getMagentoCache P now w
  let customer ← getProp magentoCache "customer"
  pure (match getPropOpt customer "firstname" with
    | .undefined => false
    | _ => true)

/-! ## minicart/api.js: the cart store -/

/-- The static `Store.DEFAULT_CART` (minicart/api.js, lines 23-27). -/
def DEFAULT_CART : JSVal :=
  .obj [("items", .arr []), ("id", .null), ("total_quantity", .num 0)]

/-- Source method `Store.getCart` (minicart/api.js, lines 47-60): the projected current
cart, and the world after the assignment to `this.cartId`. -/
def getCart (P : Platform) (now : Int) (w : World) : JSVal × World :=
  match getCartFromLocalStorage P now w with
  | .error _ => (DEFAULT_CART, w)
  | .ok storedCart =>
    if storedCart.truthy then
      match getProp storedCart "data_id" with
      | .error _ => (DEFAULT_CART, w)
      | .ok dataId =>
        let w1 := { w with cartId := dataId }
        match transformCart storedCart with
        | .error _ => (DEFAULT_CART, w1)
        | .ok parsed => (if parsed.truthy then parsed else DEFAULT_CART, w1)
    else (DEFAULT_CART, w)

/-- Invocation of the subscriber callback with handle `h` on `arg`. Callbacks are
code of the callers: the model records the invocation and lets the callback throw as
`throwsOn h arg` says, with no other effect on the world. -/
def invokeCallback (throwsOn : Nat → JSVal → Bool) (h : Nat) (arg : JSVal) (w : World) :
    Except World World :=
  let w1 := { w with delivered := w.delivered ++ [(h, arg)] }
  if throwsOn h arg then .error w1 else .ok w1

/-- The loop `subscribers.forEach((callback) => { callback(this.getCart()); })`. -/
def notifyEach (throwsOn : Nat → JSVal → Bool) (P : Platform) (now : Int) :
    List Nat → World → Except World World
  | [], w => .ok w
  | h :: hs, w =>
    match invokeCallback throwsOn h (getCart P now w).1 (getCart P now w).2 with
    | .error w1 => .error w1
    | .ok w1 => notifyEach throwsOn P now hs w1

/-- Source method `Store.notifySubscribers` (minicart/api.js, lines 80-84). -/
def notifySubscribers (throwsOn : Nat → JSVal → Bool) (P : Platform) (now : Int)
    (w : World) : Except World World :=
  notifyEach throwsOn P now w.subscribers w

/-- The loop `subscribers.forEach((callback) => { callback({}); })`. -/
def resetEach (throwsOn : Nat → JSVal → Bool) : List Nat → World → Except World World
  | [], w => .ok w
  | h :: hs, w =>
    match invokeCallback throwsOn h JSVal.emptyObject w with
    | .error w1 => .error w1
    | .ok w1 => resetEach throwsOn hs w1

/-- Source method `Store.resetCart` (minicart/api.js, lines 68-73). -/
def resetCart (throwsOn : Nat → JSVal → Bool) (w : World) : Except World World :=
  let w1 := { w with cartId := JSVal.null }
  resetEach throwsOn w1.subscribers w1

/-- Source method `Store.subscribe` (minicart/api.js, lines 75-78). -/
def subscribe (throwsOn : Nat → JSVal → Bool) (P : Platform) (now : Int) (callback : Nat)
    (w : World) : Except World World :=
  let w1 := { w with subscribers := w.subscribers ++ [callback] }
  invokeCallback throwsOn callback (getCart P now w1).1 (getCart P now w1).2

/-- Source method `Store.updateCart` (minicart/api.js, lines 62-65). -/
def updateCart (throwsOn : Nat → JSVal → Bool) (P : Platform) (now : Int)
    (refresh : FetchOutcome) (w : World) : Except World World :=
  match updateMagentoCacheSections P now ["cart"] refresh w with
  | .error w1 => .error w1
  | .ok w1 => notifySubscribers throwsOn P now w1

/-! ## minicart/cart.js: the cart mutation service -/

/-- An entry of the `errors` array of a GraphQL response: `extensions?.category`. -/
structure GqlError where
  category : Option String

/-- An entry of `user_errors`. -/
structure UserError where
  code : String
  message : String

/-- The value of `data.addProductsToCart`. -/
structure AddProductsToCartOutput where
  cart : Option Cart
  user_errors : Option (List UserError)

/-- The value of `data`. -/
structure QueryData where
  addProductsToCart : Option AddProductsToCartOutput

/-- What `performMonolithGraphQLQuery` resolves to. Every `Option` is `none` where the
response has `null` or no value. -/
structure QueryResult where
  data : Option QueryData
  errors : Option (List GqlError)

/-- What the awaited `performMonolithGraphQLQuery` settles to: a rejection, or a value,
`none` for a value that cannot be destructured. -/
inductive QueryOutcome where
  | rejected
  | resolved (r : Option QueryResult)

/-- The test `errors.some(({ extensions }) => extensions?.category === c)`. -/
def hasCategory (errors : List GqlError) (c : String) : Bool :=
  errors.any (fun e => decide (e.category = some c))

/-- Source function `handleCartErrors` (minicart/cart.js, lines 117-143). -/
def handleCartErrors (throwsOn : Nat → JSVal → Bool) (errors : Option (List GqlError))
    (w : World) : Except World World :=
  match errors with
  | none => .ok w
  | some es =>
    if hasCategory es "graphql-no-such-entity" then resetCart throwsOn w
    else if hasCategory es "graphql-authorization" then resetCart throwsOn w
    else if hasCategory es "graphql-input" then .ok w
    else .error w

/-- Source function `waitForCart` (minicart/cart.js, lines 151-160): the busy state is
set; the returned callback is `releaseCart`. -/
def waitForCart (w : World) : World :=
  { w with loading := true }

/-- The callback returned by `waitForCart` (minicart/cart.js, lines 156-159). -/
def releaseCart (w : World) : World :=
  { w with loading := false, releases := w.releases + 1 }

/-- The block of `addToCart` at minicart/cart.js, lines 259-271: `cart.items` loses its
`null` entries and `cart.total_quantity` is checked against the line items, whose
quantities are added as doubles, left to right from the literal `0`. A `TypeError` when
`cart.items` is `null`. -/
def recomputeTotalQuantity (P : Platform) (cart : Cart) : Except Unit Cart :=
  match cart.items with
  | none => .error ()
  | some rawItems =>
    let items := rawItems.filter (fun item => item.isSome)
    let cart1 : Cart := { cart with items := some items }
    if items.length > 0 then
      let lineItemTotalQuantity :=
        (items.flatMap (fun item => match item with
          | some i => [i.quantity]
          | none => [])).foldl (fun partialSum a => P.addDouble partialSum a)
          (Double.finite 0)
      if Double.strictNe lineItemTotalQuantity cart1.total_quantity then
        .ok { cart1 with total_quantity := lineItemTotalQuantity }
      else .ok cart1
    else .ok cart1

/-- The `try` block of `addToCart` (minicart/cart.js, lines 237-275). -/
def addToCartBody (throwsOn : Nat → JSVal → Bool) (P : Platform) (now : Int)
    (sku : String) (options : List String) (quantity : ℚ)
    (query : QueryOutcome) (refresh : FetchOutcome) (w : World) : Except World World :=
  match getCartIdFromLocalStorage P now w with
  | .error _ => .error w
  | .ok cartId =>
    let w1 := { w with requests :=
      w.requests ++ [Request.addProductsToCart cartId sku options quantity] }
    match query with
    | .rejected => .error w1
    | .resolved none => .error w1
    | .resolved (some r) =>
      match handleCartErrors throwsOn r.errors w1 with
      | .error w2 => .error w2
      | .ok w2 =>
        match r.data with
        | none => .error w2
        | some data =>
          match data.addProductsToCart with
          | none => .error w2
          | some output =>
            match output.cart with
            | none => .error w2
            | some cart0 =>
              match recomputeTotalQuantity P cart0 with
              | .error _ => .error w2
              | .ok cart =>
                match updateCart throwsOn P now refresh w2 with
                | .error w3 => .error w3
                | .ok w3 => .ok { w3 with addedCarts := w3.addedCarts ++ [cart] }

/-- Source function `addToCart` (minicart/cart.js, lines 234-281): `waitForCart`, the
`try` block, the `catch` clause that logs, and `finally` the release callback. -/
def addToCart (throwsOn : Nat → JSVal → Bool) (P : Platform) (now : Int)
    (sku : String) (options : List String) (quantity : ℚ)
    (query : QueryOutcome) (refresh : FetchOutcome) (w : World) : Except World World :=
  match addToCartBody throwsOn P now sku options quantity query refresh (waitForCart w) with
  | .ok w1 => .ok (releaseCart w1)
  | .error w1 => .ok (releaseCart w1)

/-- The `options` object of `resolveSessionCartDrift`: whether `options.waitForCart`
and `options.force` are truthy. -/
structure DriftOptions where
  waitForCart : Bool
  force : Bool

/-- Source function `resolveSessionCartDrift` (minicart/cart.js, lines 169-198).
`options` is `none` when the caller passes `undefined`: reading `options.force` or
`options.waitForCart` then throws before anything is done. The class toggling on the
`.account-contact` elements is not part of the model. -/
def resolveSessionCartDrift (throwsOn : Nat → JSVal → Bool) (P : Platform) (now : Int)
    (options : Option DriftOptions) (resp : FetchOutcome) (w : World) :
    Except World World :=
  match options with
  | none => .error w
  | some o =>
    if isCommerceStatePristine w && !o.force then .ok w
    else
      let w1 := if o.waitForCart then waitForCart w else w
      match updateMagentoCacheSections P now ["cart", "customer", "side-by-side"] resp w1 with
      | .error w2 => .error w2
      | .ok w2 =>
        match getLoggedInFromLocalStorage P now w2 with
        | .error _ => .error w2
        | .ok loggedIn =>
          let store1 := setItem w2.localStorage "loggedIn"
            (if loggedIn then "true" else "false")
          match notifySubscribers throwsOn P now { w2 with localStorage := store1 } with
          | .error w4 => .error w4
          | .ok w4 => .ok (if o.waitForCart then releaseCart w4 else w4)

/-! ## Auxiliary definitions for the statements -/

/-- The own properties after assigning every entry of `es` in turn to an object with own
properties `ps`: what the `forEach` loop of `updateMagentoCacheSections` builds. -/
def mergeProps (ps es : List (String × JSVal)) : List (String × JSVal) :=
  es.foldl (fun acc p => assignOwn p.1 p.2 acc) ps

/-- The line items of a raw item list that are not `null`. -/
def survivingItems (rawItems : List (Option CartItem)) : List CartItem :=
  rawItems.filterMap id

/-- The sum of the quantities of the line items that are not `null`, added as doubles
from left to right, starting from the positive zero. -/
def survivingQuantity (P : Platform) (rawItems : List (Option CartItem)) : Double :=
  ((survivingItems rawItems).map CartItem.quantity).foldl P.addDouble (Double.finite 0)

/-- The world in which a stateful call ends, normally or by an exception. -/
def resultWorld : Except World World → World
  | .ok w => w
  | .error w => w

/-- The callbacks that a `forEach` loop over `hs` invokes with `arg`: all of them up to
and including the first one that throws. -/
def invokedCallbacks (throwsOn : Nat → JSVal → Bool) (arg : JSVal) : List Nat → List Nat
  | [] => []
  | h :: hs => if throwsOn h arg then [h] else h :: invokedCallbacks throwsOn arg hs

/-- The nested read `x.k1.k2` and so on along a list of property names. -/
def getPath : JSVal → List String → Except Unit JSVal
  | x, [] => .ok x
  | x, k :: ks =>
    match getProp x k with
    | .error e => .error e
    | .ok y => getPath y ks

/-- The value `x` is an object with an own property named `k`. -/
def carriesField (x : JSVal) (k : String) : Prop :=
  ∃ ps v, x = .obj ps ∧ propLookup k ps = some v

/-- The item of a stored cart section carries `product_sku`, `product_name`, `qty`,
`product_price_value` and `product_image.src`. -/
def carriesItemFields (item : JSVal) : Prop :=
  carriesField item "product_sku" ∧ carriesField item "product_name"
    ∧ carriesField item "qty" ∧ carriesField item "product_price_value"
    ∧ ∃ image, getProp item "product_image" = .ok image ∧ carriesField image "src"

/-- An item whose `product_type` is `bundle` or `configurable` has an `options` array
without `null` entries. -/
def optionsUsable (item : JSVal) : Prop :=
  ∀ t, getProp item "product_type" = .ok t →
    (strictEqStr t "bundle" = true ∨ strictEqStr t "configurable" = true) →
    ∃ opts, getProp item "options" = .ok (.arr opts) ∧ ∀ o ∈ opts, o.nullish = false

/-- The output item `out` holds the values of the stored item `item`: the sku at
`product.sku`, the name at `product.name`, the quantity at `quantity`, the unit price at
`prices.price.value` and the thumbnail at `product.thumbnail.url`, which is where the
`cartQuery` fragment of cart.js has them. -/
def itemCorresponds (item out : JSVal) : Prop :=
  getPath out ["product", "sku"] = getProp item "product_sku"
    ∧ getPath out ["product", "name"] = getProp item "product_name"
    ∧ getProp out "quantity" = getProp item "qty"
    ∧ getPath out ["prices", "price", "value"] = getProp item "product_price_value"
    ∧ getPath out ["product", "thumbnail", "url"] = getPath item ["product_image", "src"]

/-- The cart that `transformCart` makes of a cart of its own making that has no items:
every field read from the input is `undefined`. -/
def blankCart : JSVal :=
  .obj [("id", .undefined), ("items", .arr []),
    ("prices", .obj [("subtotal_excluding_tax", .obj [("value", .undefined)])]),
    ("total_quantity", .undefined)]

/-! ## Fixtures for the examples -/

/-- The line item of the scenario of the specification, with quantity `n`. -/
def widgetItem (n : ℚ) : JSVal :=
  .obj [("qty", .num n), ("product_sku", .str "A"), ("product_name", .str "Widget"),
    ("product_price_value", .num 9.99), ("product_image", .obj [("src", .str "/a.jpg")]),
    ("product_type", .str "simple")]

/-- The stored cart section of the scenario of the specification, with quantity `n`. -/
def widgetSection (n : ℚ) : JSVal :=
  .obj [("summary_count", .num n), ("items", .arr [widgetItem n])]

/-- The text of a cache blob whose cart section is `widgetSection 5`. -/
def widgetBlob : String :=
  "\x7b\"cart\":\x7b\"summary_count\":5,\"items\":[\x7b\"qty\":5,\"product_sku\":\"A\","
    ++ "\"product_name\":\"Widget\",\"product_price_value\":9.99,"
    ++ "\"product_image\":\x7b\"src\":\"/a.jpg\"\x7d,\"product_type\":\"simple\"\x7d]\x7d\x7d"

/-- The text of a timeout that `JSON.parse` reads as an object whose `toString` and
`valueOf` are numbers: `new Date` of that object throws a `TypeError`. -/
def brokenTimeout : String :=
  "\x7b\"toString\":1,\"valueOf\":1\x7d"

/-- The text of a cache blob with a customer section and a cart section. -/
def twoSectionBlob : String :=
  "\x7b\"customer\":\x7b\"firstname\":\"Ada\"\x7d,"
    ++ "\"cart\":\x7b\"summary_count\":1,\"items\":[]\x7d\x7d"

/-- The own properties of the object that `twoSectionBlob` is the text of. -/
def twoSections : List (String × JSVal) :=
  [("customer", .obj [("firstname", .str "Ada")]),
   ("cart", .obj [("summary_count", .num 1), ("items", .arr [])])]

/-- A platform for the examples. Its `jsonParse` agrees with `JSON.parse` on the texts
listed and rejects every other text; its `dateTime` knows one ISO instant, throws on an
object with an own `toString` and takes every other value for an invalid date; its
`addDouble` adds finite doubles exactly, which is the IEEE sum for the small integers of
the examples. -/
def samplePlatform : Platform where
  jsonParse := fun s =>
    if s = "null" then some .null
    else if s = "\x7b\x7d" then some (.obj [])
    else if s = "\"2024-01-01T00:00:00.000Z\"" then some (.str "2024-01-01T00:00:00.000Z")
    else if s = "\x7b\"customer\":\x7b\"firstname\":\"Ada\"\x7d\x7d" then
      some (.obj [("customer", .obj [("firstname", .str "Ada")])])
    else if s = "\x7b\"side-by-side\":\x7b\"cart_id\":\"c1\"\x7d\x7d" then
      some (.obj [("side-by-side", .obj [("cart_id", .str "c1")])])
    else if s = widgetBlob then some (.obj [("cart", widgetSection 5)])
    else if s = "\"not a date\"" then some (.str "not a date")
    else if s = brokenTimeout then some (.obj [("toString", .num 1), ("valueOf", .num 1)])
    else if s = twoSectionBlob then some (.obj twoSections)
    else none
  jsonStringify := fun v =>
    match v with
    | .obj [] => "\x7b\x7d"
    | .str s => "\"" ++ s ++ "\""
    | _ => "<json>"
  dateTime := fun v =>
    match v with
    | .str s => if s = "2024-01-01T00:00:00.000Z" then .ok (some 1704067200000) else .ok none
    | .obj ps => if (propLookup "toString" ps).isSome then .error () else .ok none
    | _ => .ok none
  addDouble := fun a b =>
    match a, b with
    | .finite p, .finite q => .finite (p + q)
    | _, _ => .nan
  toISOString := fun t => "iso:" ++ toString t
  toUTCString := fun t => "utc:" ++ toString t
  assignCookie := fun jar s => if jar = "" then s else jar ++ "; " ++ s
  entriesOfString := fun _ => []
  assignToArray := fun xs _ _ => .ok (.arr xs)

/-- A fresh browser: nothing stored, no cookie, no subscriber. -/
def emptyWorld : World where
  localStorage := []
  cookie := ""
  protocol := "https:"
  events := []
  requests := []
  cartId := .null
  subscribers := []
  delivered := []
  loading := false
  releases := 0
  addedCarts := []

/-- The instant 2024-01-01T00:00:00.000Z in milliseconds. -/
def newYear2024 : Int := 1704067200000

/-- A world with the freshness cookie and a timeout at `newYear2024`. -/
def timedWorld : World :=
  { emptyWorld with
    localStorage := [(COMMERCE_CACHE_TIMEOUT_KEY, "\"2024-01-01T00:00:00.000Z\"")],
    cookie := "mage-cache-sessid=true" }

/-- A world with the freshness cookie and a timeout that is the string `not a date`. -/
def undatedWorld : World :=
  { emptyWorld with
    localStorage := [(COMMERCE_CACHE_TIMEOUT_KEY, "\"not a date\"")],
    cookie := "mage-cache-sessid=true" }

/-- A world with the freshness cookie, a cache blob that is the text `{oops` and a
timeout that is `brokenTimeout`. -/
def brokenTimeoutWorld : World :=
  { emptyWorld with
    localStorage := [(COMMERCE_CACHE_STORAGE_KEY, "\x7boops"),
      (COMMERCE_CACHE_TIMEOUT_KEY, brokenTimeout)],
    cookie := "mage-cache-sessid=true" }

/-- A world whose cache blob holds a customer section. -/
def customerWorld : World :=
  { emptyWorld with
    localStorage := [(COMMERCE_CACHE_STORAGE_KEY,
      "\x7b\"customer\":\x7b\"firstname\":\"Ada\"\x7d\x7d")] }

/-- A world whose cache blob holds a customer section and a cart section. -/
def twoSectionWorld : World :=
  { emptyWorld with localStorage := [(COMMERCE_CACHE_STORAGE_KEY, twoSectionBlob)] }

/-- A section response carrying a cart section. -/
def cartResponse : List (String × JSVal) :=
  [("cart", .obj [("summary_count", .num 5), ("items", .arr [])])]

/-- A world with a fresh cache that knows the cart identifier `c1` and has no cart
section; the callbacks 7 and 8 are subscribed. The clock of the examples is 0, before
the timeout. -/
def sessionWorld : World :=
  { timedWorld with
    localStorage :=
      [(COMMERCE_CACHE_STORAGE_KEY,
          "\x7b\"side-by-side\":\x7b\"cart_id\":\"c1\"\x7d\x7d"),
       (COMMERCE_CACHE_TIMEOUT_KEY, "\"2024-01-01T00:00:00.000Z\"")],
    subscribers := [7, 8] }

/-- Callbacks that never throw. -/
def quietCallbacks : Nat → JSVal → Bool := fun _ _ => false

/-- Callbacks of which the one with handle 7 always throws. -/
def faultyCallbacks : Nat → JSVal → Bool := fun h _ => decide (h = 7)

/-- A response of the mutation that carries a `graphql-no-such-entity` error next to a
cart whose only line item is `null`. -/
def entityErrorWithCart : QueryOutcome :=
  .resolved (some
    { data := some (QueryData.mk (some
        (AddProductsToCartOutput.mk (some (Cart.mk "c1" (some [none]) (.finite 0))) none))),
      errors := some [GqlError.mk (some "graphql-no-such-entity")] })

/-- A response of the mutation that carries a `graphql-no-such-entity` error and no
payload. -/
def entityErrorNoPayload : QueryOutcome :=
  .resolved (some
    { data := some (QueryData.mk none),
      errors := some [GqlError.mk (some "graphql-no-such-entity")] })

/-- The item that `transformCart` makes of `widgetItem n`. -/
def widgetOutputItem (n : ℚ) : JSVal :=
  .obj [("prices", .obj [("price", .obj [("value", .num 9.99)])]),
    ("product", .obj [("name", .str "Widget"), ("sku", .str "A"), ("url", .undefined),
      ("thumbnail", .obj [("url", .str "/a.jpg")])]),
    ("quantity", .num n)]

/-- The cart that `transformCart` makes of `widgetSection n`. -/
def widgetOutput (n : ℚ) : JSVal :=
  .obj [("id", .undefined), ("items", .arr [widgetOutputItem n]),
    ("prices", .obj [("subtotal_excluding_tax", .obj [("value", .undefined)])]),
    ("total_quantity", .num n)]

/-- A stored item of type `bundle` that carries the five fields and has no `options`. -/
def bundleItemWithoutOptions : JSVal :=
  .obj [("qty", .num 1), ("product_sku", .str "B"), ("product_name", .str "Box"),
    ("product_price_value", .num 20), ("product_image", .obj [("src", .str "/b.jpg")]),
    ("product_type", .str "bundle")]

/-- A stored cart section without items whose `summary_count` is 5. -/
def emptySection : JSVal :=
  .obj [("summary_count", .num 5), ("items", .arr [])]

/-- The cart that `transformCart` makes of `emptySection`. -/
def emptyOutput : JSVal :=
  .obj [("id", .undefined), ("items", .arr []),
    ("prices", .obj [("subtotal_excluding_tax", .obj [("value", .undefined)])]),
    ("total_quantity", .num 5)]

/-- A world with a fresh cache whose cart section holds one line item of quantity 5. -/
def cartWorld : World :=
  { timedWorld with
    localStorage :=
      [(COMMERCE_CACHE_STORAGE_KEY, widgetBlob),
       (COMMERCE_CACHE_TIMEOUT_KEY, "\"2024-01-01T00:00:00.000Z\"")],
    subscribers := [7] }

/-! ## Theorems -/

/-- The search `indexOfFrom` answers `-1` exactly when the needle does not occur. -/
theorem indexOfFrom_eq_neg_one (needle : List Char) (hay : List Char) (i : Nat) :
    indexOfFrom needle hay i = -1 ↔ ¬ needle <:+: hay := by
  induction hay generalizing i with
  | nil =>
    by_cases h : needle = []
    · simp [indexOfFrom, h]
    · simp [indexOfFrom, h]
  | cons c cs ih =>
    by_cases h : needle.isPrefixOf (c :: cs) = true
    · have hp : needle <+: c :: cs := List.isPrefixOf_iff_prefix.mp h
      simp only [indexOfFrom, h, if_true]
      constructor
      · intro h1; omega
      · intro h1; exact absurd hp.isInfix h1
    · have hp : ¬ needle <+: c :: cs := fun hp => h (List.isPrefixOf_iff_prefix.mpr hp)
      simp only [indexOfFrom, h, List.infix_cons_iff, hp, false_or]
      exact ih (i + 1)

/-- The method `indexOf` answers `-1` exactly when the needle is not a substring. -/
theorem indexOf_eq_neg_one (hay needle : String) :
    indexOf hay needle = -1 ↔ ¬ needle.toList <:+: hay.toList := by
  unfold indexOf
  exact indexOfFrom_eq_neg_one _ _ _

/-- The freshness cookie as `isMagentoLocalStorageExpired` looks for it: the text
`mage-cache-sessid=true` occurs in the cookie string. -/
theorem cookie_absent_iff (w : World) :
    indexOf w.cookie (COMMERCE_CACHE_SESSION_COOKIE ++ "=true") = -1
      ↔ ¬ "mage-cache-sessid=true".toList <:+: w.cookie.toList := by
  rw [indexOf_eq_neg_one]
  rfl

/-- What holds of `getMagentoCache` in general: it returns the empty object `{}` when
the stored blob is missing or empty, when `isMagentoLocalStorageExpired` returns true,
and when that function returns false and `JSON.parse` rejects the blob. -/
theorem getMagentoCache_empty_of_return (P : Platform) (now : Int) (w : World)
    (h : itemFalsy (getItem w.localStorage COMMERCE_CACHE_STORAGE_KEY) = true
      ∨ isMagentoLocalStorageExpired P now w = .ok true
      ∨ (isMagentoLocalStorageExpired P now w = .ok false
          ∧ ∃ s, getItem w.localStorage COMMERCE_CACHE_STORAGE_KEY = some s
            ∧ P.jsonParse s = none)) :
    getMagentoCache P now w = .ok JSVal.emptyObject := by
  unfold getMagentoCache
  rcases h with h | h | ⟨h, s, hs, hp⟩
  · simp [h]
  · by_cases hf : itemFalsy (getItem w.localStorage COMMERCE_CACHE_STORAGE_KEY) = true
    · simp [hf]
    · simp [hf, h]
  · by_cases hf : itemFalsy (getItem w.localStorage COMMERCE_CACHE_STORAGE_KEY) = true
    · simp [hf]
    · simp [hf, h, hs, hp]

/-- Claim C1 at its failing input. The stored blob is the text `{oops`, which
`JSON.parse` rejects; the freshness cookie is present and the timeout metadata is the
text of an object whose `toString` and `valueOf` are numbers. `JSON.parse` accepts the
timeout, `new Date` of the parsed object throws a `TypeError` outside every `try`, and
the exception leaves `isMagentoLocalStorageExpired` and `getMagentoCache`: the function
throws where the claim says it returns `{}`. -/
theorem getMagentoCache_throws_on_broken_timeout :
    getItem brokenTimeoutWorld.localStorage COMMERCE_CACHE_STORAGE_KEY = some "\x7boops"
      ∧ samplePlatform.jsonParse "\x7boops" = none
      ∧ isMagentoLocalStorageExpired samplePlatform 0 brokenTimeoutWorld = .error ()
      ∧ getMagentoCache samplePlatform 0 brokenTimeoutWorld = .error () := by
  refine ⟨by decide, rfl, rfl, rfl⟩

/-- Claim C2. If the text `mage-cache-sessid=true` does not occur in the cookie string,
`isMagentoLocalStorageExpired` returns true, whatever the stored timeout and the clock. -/
theorem expired_of_cookie_absent (P : Platform) (now : Int) (w : World)
    (h : ¬ "mage-cache-sessid=true".toList <:+: w.cookie.toList) :
    isMagentoLocalStorageExpired P now w = .ok true := by
  unfold isMagentoLocalStorageExpired
  simp [(cookie_absent_iff w).mpr h]

/-- Witness of C2: a timeout far in the future (the clock is at 0), no cookie. -/
theorem expired_of_cookie_absent_witness :
    isMagentoLocalStorageExpired samplePlatform 0 { timedWorld with cookie := "" }
      = .ok true :=
  expired_of_cookie_absent samplePlatform 0 { timedWorld with cookie := "" } (by decide)

/-- Claim C3 fails as stated. With the freshness cookie present and the clock exactly
at the stored timeout instant, `isMagentoLocalStorageExpired` returns false. With a
timeout that `JSON.parse` reads as the string `not a date`, which is no date, it
returns false as well: a timeout that cannot be read as a date is not treated as
expired. -/
theorem expired_at_timeout_instant_false :
    "mage-cache-sessid=true".toList <:+: timedWorld.cookie.toList
      ∧ getItem timedWorld.localStorage COMMERCE_CACHE_TIMEOUT_KEY
          = some "\"2024-01-01T00:00:00.000Z\""
      ∧ samplePlatform.jsonParse "\"2024-01-01T00:00:00.000Z\""
          = some (.str "2024-01-01T00:00:00.000Z")
      ∧ samplePlatform.dateTime (.str "2024-01-01T00:00:00.000Z") = .ok (some newYear2024)
      ∧ isMagentoLocalStorageExpired samplePlatform newYear2024 timedWorld = .ok false
      ∧ "mage-cache-sessid=true".toList <:+: undatedWorld.cookie.toList
      ∧ getItem undatedWorld.localStorage COMMERCE_CACHE_TIMEOUT_KEY
          = some "\"not a date\""
      ∧ samplePlatform.jsonParse "\"not a date\"" = some (.str "not a date")
      ∧ samplePlatform.dateTime (.str "not a date") = .ok none
      ∧ isMagentoLocalStorageExpired samplePlatform newYear2024 undatedWorld
          = .ok false := by
  refine ⟨by decide, by decide, rfl, rfl, rfl, by decide, by decide, rfl, rfl, rfl⟩

/-- Claim C3, amended. With the freshness cookie present, `isMagentoLocalStorageExpired`
returns true if and only if the timeout metadata is missing (absent or the empty
string), or `JSON.parse` rejects it, or the parsed value converts to a date instant
that is strictly smaller than the current time. It returns false if and only if
`JSON.parse` accepts the non-empty timeout and the parsed value converts to an invalid
date (`NaN`) or to an instant that is not smaller than the current time, the instant
equal to the current time included. -/
theorem expired_iff_of_cookie_present (P : Platform) (now : Int) (w : World)
    (hc : "mage-cache-sessid=true".toList <:+: w.cookie.toList) :
    (isMagentoLocalStorageExpired P now w = .ok true ↔
      (getItem w.localStorage COMMERCE_CACHE_TIMEOUT_KEY = none
        ∨ getItem w.localStorage COMMERCE_CACHE_TIMEOUT_KEY = some ""
        ∨ (∃ s, getItem w.localStorage COMMERCE_CACHE_TIMEOUT_KEY = some s
            ∧ P.jsonParse s = none)
        ∨ (∃ s v t, getItem w.localStorage COMMERCE_CACHE_TIMEOUT_KEY = some s
            ∧ P.jsonParse s = some v ∧ P.dateTime v = .ok (some t) ∧ t < now)))
    ∧ (isMagentoLocalStorageExpired P now w = .ok false ↔
      (∃ s v, getItem w.localStorage COMMERCE_CACHE_TIMEOUT_KEY = some s ∧ s ≠ ""
        ∧ P.jsonParse s = some v
        ∧ (P.dateTime v = .ok none ∨ ∃ t, P.dateTime v = .ok (some t) ∧ now ≤ t))) := by
  have hcookie : ¬ indexOf w.cookie (COMMERCE_CACHE_SESSION_COOKIE ++ "=true") = -1 :=
    fun h => (cookie_absent_iff w).mp h hc
  unfold isMagentoLocalStorageExpired
  simp only [hcookie, if_false]
  cases hget : getItem w.localStorage COMMERCE_CACHE_TIMEOUT_KEY with
  | none => simp [itemFalsy]
  | some s =>
    by_cases hs : s = ""
    · simp [itemFalsy, hs]
    · have hf : itemFalsy (some s) = false := by simp [itemFalsy, hs]
      simp only [hf, Bool.false_eq_true, if_false, Option.getD_some]
      cases hp : P.jsonParse s with
      | none => simp [hs, hp]
      | some v =>
        cases hd : P.dateTime v with
        | error e => simp [hs, hp, hd]
        | ok r =>
          cases r with
          | none => simp [hs, hp, hd]
          | some t =>
            have h1 : (t - now < 0) ↔ t < now := by omega
            have h2 : ¬ (t - now < 0) ↔ now ≤ t := by omega
            simp [hs, hp, hd, h1, h2]

/-- Witness of the amended C3: one millisecond past the timeout the cache is expired. -/
theorem expired_iff_of_cookie_present_witness :
    isMagentoLocalStorageExpired samplePlatform (newYear2024 + 1) timedWorld = .ok true :=
  (expired_iff_of_cookie_present samplePlatform (newYear2024 + 1) timedWorld
    (by decide)).1.mpr
    (Or.inr (Or.inr (Or.inr ⟨"\"2024-01-01T00:00:00.000Z\"",
      .str "2024-01-01T00:00:00.000Z", newYear2024, by decide, by rfl, by rfl,
      by decide⟩)))

/-- Claim C4 fails as stated: the cache blob key is present, holding the empty string,
and `isCommerceStatePristine` still returns true. -/
theorem pristine_with_empty_blob :
    getItem [(COMMERCE_CACHE_STORAGE_KEY, "")] COMMERCE_CACHE_STORAGE_KEY = some ""
      ∧ isCommerceStatePristine
          { emptyWorld with localStorage := [(COMMERCE_CACHE_STORAGE_KEY, "")] } = true := by
  refine ⟨by decide, by decide⟩

/-- Claim C4, amended. `isCommerceStatePristine` returns true if and only if each of the
invalidation map key, the cache blob key and the timeout key is absent or holds the
empty string, and the cookie string does not contain the name `mage-cache-sessid`; so a
key with a non-empty value, or the cookie name in the cookie string, makes it false. -/
theorem pristine_iff (w : World) :
    isCommerceStatePristine w = true ↔
      ((getItem w.localStorage COMMERCE_CACHE_INVALIDATION_KEY = none
          ∨ getItem w.localStorage COMMERCE_CACHE_INVALIDATION_KEY = some "")
        ∧ (getItem w.localStorage COMMERCE_CACHE_STORAGE_KEY = none
          ∨ getItem w.localStorage COMMERCE_CACHE_STORAGE_KEY = some "")
        ∧ (getItem w.localStorage COMMERCE_CACHE_TIMEOUT_KEY = none
          ∨ getItem w.localStorage COMMERCE_CACHE_TIMEOUT_KEY = some "")
        ∧ ¬ "mage-cache-sessid".toList <:+: w.cookie.toList) := by
  have hfalsy : ∀ x : Option String, itemFalsy x = true ↔ (x = none ∨ x = some "") := by
    intro x
    cases x <;> simp [itemFalsy]
  have hcookie : indexOf w.cookie COMMERCE_CACHE_SESSION_COOKIE = -1
      ↔ ¬ "mage-cache-sessid".toList <:+: w.cookie.toList := by
    rw [indexOf_eq_neg_one]
    rfl
  unfold isCommerceStatePristine
  simp only [Bool.and_eq_true, decide_eq_true_eq, hfalsy, hcookie, and_assoc]

/-! ### Lemmas on storage and own properties -/

theorem getItem_setItem_self (store : List (String × String)) (k v : String) :
    getItem (setItem store k v) k = some v := by
  induction store with
  | nil => simp [setItem, getItem]
  | cons p rest ih =>
    obtain ⟨k1, v1⟩ := p
    by_cases h : k1 = k
    · simp [setItem, getItem, h]
    · simp [setItem, getItem, h, ih]

theorem getItem_setItem_ne (store : List (String × String)) (k v k1 : String)
    (h : k ≠ k1) : getItem (setItem store k v) k1 = getItem store k1 := by
  induction store with
  | nil => simp [setItem, getItem, h]
  | cons p rest ih =>
    obtain ⟨k2, v2⟩ := p
    by_cases h2 : k2 = k
    · subst h2
      simp [setItem, getItem, h]
    · by_cases h3 : k2 = k1
      · subst h3
        simp [setItem, getItem, h2]
      · simp [setItem, getItem, h2, h3, ih]

theorem propLookup_propSet_self (k : String) (v : JSVal) (ps : List (String × JSVal)) :
    propLookup k (propSet k v ps) = some v := by
  induction ps with
  | nil => simp [propSet, propLookup]
  | cons p rest ih =>
    obtain ⟨k1, v1⟩ := p
    by_cases h : k1 = k
    · simp [propSet, propLookup, h]
    · simp [propSet, propLookup, h, ih]

theorem propLookup_propSet_ne (k k1 : String) (v : JSVal) (ps : List (String × JSVal))
    (h : k ≠ k1) : propLookup k1 (propSet k v ps) = propLookup k1 ps := by
  induction ps with
  | nil => simp [propSet, propLookup, h]
  | cons p rest ih =>
    obtain ⟨k2, v2⟩ := p
    by_cases h2 : k2 = k
    · subst h2
      simp [propSet, propLookup, h]
    · by_cases h3 : k2 = k1
      · subst h3
        simp [propSet, propLookup, h2]
      · simp [propSet, propLookup, h2, h3, ih]

theorem mem_keys_propSet (k k1 : String) (v : JSVal) (ps : List (String × JSVal)) :
    k1 ∈ (propSet k v ps).map Prod.fst ↔ (k1 = k ∨ k1 ∈ ps.map Prod.fst) := by
  induction ps with
  | nil => simp [propSet]
  | cons p rest ih =>
    obtain ⟨k2, v2⟩ := p
    by_cases h2 : k2 = k
    · subst h2
      simp [propSet]
    · simp only [propSet, h2, if_false, List.map_cons, List.mem_cons, ih]
      tauto

theorem propLookup_assignOwn_ne (k k1 : String) (v : JSVal) (ps : List (String × JSVal))
    (h : k ≠ k1) : propLookup k1 (assignOwn k v ps) = propLookup k1 ps := by
  unfold assignOwn
  split
  · rfl
  · exact propLookup_propSet_ne k k1 v ps h

theorem propLookup_assignOwn_self (k : String) (v : JSVal) (ps : List (String × JSVal))
    (h : k ≠ "__proto__" ∨ (propLookup k ps).isSome = true) :
    propLookup k (assignOwn k v ps) = some v := by
  have hcond : ¬ ((k == "__proto__" && (propLookup k ps).isNone) = true) := by
    intro hc
    simp only [Bool.and_eq_true, beq_iff_eq] at hc
    rcases h with h | h
    · exact h hc.1
    · cases hl : propLookup k ps with
      | none => simp [hl] at h
      | some x => simp [hl] at hc
  unfold assignOwn
  split
  · rename_i hc
    exact absurd hc hcond
  · exact propLookup_propSet_self k v ps

theorem propLookup_assignOwn_proto (v : JSVal) (ps : List (String × JSVal))
    (h : propLookup "__proto__" ps = none) :
    assignOwn "__proto__" v ps = ps := by
  simp [assignOwn, h]

theorem mem_keys_assignOwn (k k1 : String) (v : JSVal) (ps : List (String × JSVal))
    (h : k1 ∈ (assignOwn k v ps).map Prod.fst) : k1 = k ∨ k1 ∈ ps.map Prod.fst := by
  unfold assignOwn at h
  split at h
  · exact Or.inr h
  · exact (mem_keys_propSet k k1 v ps).mp h

theorem mergeProps_cons (ps rest : List (String × JSVal)) (k : String) (v : JSVal) :
    mergeProps ps ((k, v) :: rest) = mergeProps (assignOwn k v ps) rest := by
  simp [mergeProps]

theorem assignAll_obj (P : Platform) (ps es : List (String × JSVal)) :
    assignAll P (.obj ps) es = .ok (.obj (mergeProps ps es)) := by
  induction es generalizing ps with
  | nil => simp [assignAll, mergeProps]
  | cons e rest ih =>
    obtain ⟨k, v⟩ := e
    simp only [assignAll, assignProp, ih]
    simp [mergeProps]

theorem propLookup_mergeProps_of_not_mem (ps es : List (String × JSVal)) (k : String)
    (h : k ∉ es.map Prod.fst) : propLookup k (mergeProps ps es) = propLookup k ps := by
  induction es generalizing ps with
  | nil => simp [mergeProps]
  | cons e rest ih =>
    obtain ⟨k1, v1⟩ := e
    simp only [List.map_cons, List.mem_cons, not_or] at h
    rw [mergeProps_cons, ih _ h.2]
    exact propLookup_assignOwn_ne k1 k v1 ps (fun e => h.1 e.symm)

theorem propLookup_mergeProps_of_mem (ps es : List (String × JSVal)) (k : String)
    (v : JSVal) (hmem : (k, v) ∈ es) (hnodup : (es.map Prod.fst).Nodup)
    (hk : k ≠ "__proto__" ∨ (propLookup k ps).isSome = true) :
    propLookup k (mergeProps ps es) = some v := by
  induction es generalizing ps with
  | nil => simp at hmem
  | cons e rest ih =>
    obtain ⟨k1, v1⟩ := e
    simp only [List.map_cons, List.nodup_cons] at hnodup
    rw [mergeProps_cons]
    rcases List.mem_cons.mp hmem with heq | hrest
    · obtain ⟨rfl, rfl⟩ := Prod.mk.inj heq
      rw [propLookup_mergeProps_of_not_mem _ _ _ hnodup.1]
      exact propLookup_assignOwn_self _ _ _ hk
    · have hne : k1 ≠ k := by
        intro e
        apply hnodup.1
        rw [e]
        exact List.mem_map_of_mem Prod.fst hrest
      refine ih _ hrest hnodup.2 ?_
      rw [propLookup_assignOwn_ne k1 k v1 ps hne]
      exact hk

theorem propLookup_mergeProps_proto (ps es : List (String × JSVal))
    (h : propLookup "__proto__" ps = none) :
    propLookup "__proto__" (mergeProps ps es) = none := by
  induction es generalizing ps with
  | nil => simpa [mergeProps] using h
  | cons e rest ih =>
    obtain ⟨k1, v1⟩ := e
    rw [mergeProps_cons]
    apply ih
    by_cases hk : k1 = "__proto__"
    · subst hk
      rw [propLookup_assignOwn_proto v1 ps h]
      exact h
    · rw [propLookup_assignOwn_ne k1 "__proto__" v1 ps hk]
      exact h

theorem mem_keys_mergeProps (ps es : List (String × JSVal)) (k : String)
    (h : k ∈ (mergeProps ps es).map Prod.fst) :
    k ∈ es.map Prod.fst ∨ k ∈ ps.map Prod.fst := by
  induction es generalizing ps with
  | nil => right; simpa [mergeProps] using h
  | cons e rest ih =>
    obtain ⟨k1, v1⟩ := e
    rw [mergeProps_cons] at h
    rcases ih _ h with h3 | h3
    · left; simp [h3]
    · rcases mem_keys_assignOwn k1 k v1 ps h3 with h4 | h4
      · left; simp [h4]
      · right; exact h4

/-! ### updateMagentoCacheSections -/

/-- The invalidation check throws only on metadata that parses to `null`. -/
theorem isMagentoCacheInvalidated_ok (P : Platform) (sections : List String) (w : World)
    (hinv : ∀ s v, getItem w.localStorage COMMERCE_CACHE_INVALIDATION_KEY = some s →
      P.jsonParse s = some v → v.nullish = false) :
    ∃ b, isMagentoCacheInvalidated P sections w = .ok b := by
  unfold isMagentoCacheInvalidated
  cases hget : getItem w.localStorage COMMERCE_CACHE_INVALIDATION_KEY with
  | none => exact ⟨false, by simp [itemFalsy]⟩
  | some s =>
    by_cases hf : itemFalsy (some s) = true
    · exact ⟨false, by simp [hf]⟩
    · simp only [hf, if_false, Option.getD_some]
      cases hp : P.jsonParse s with
      | none => exact ⟨false, rfl⟩
      | some v =>
        have hn := hinv s v hget hp
        cases v <;> simp [JSVal.nullish] at hn <;> simp [objectEntries]

/-- When the invalidation check finds a section, removing the sections completes and
touches only the invalidation key. -/
theorem removeMagentoCacheInvalidations_ok (P : Platform) (sections : List String)
    (w : World) (h : isMagentoCacheInvalidated P sections w = .ok true) :
    ∃ blob, removeMagentoCacheInvalidations P sections w
      = .ok { w with
          localStorage := setItem w.localStorage COMMERCE_CACHE_INVALIDATION_KEY blob } := by
  unfold isMagentoCacheInvalidated at h
  unfold removeMagentoCacheInvalidations
  cases hget : getItem w.localStorage COMMERCE_CACHE_INVALIDATION_KEY with
  | none => simp [hget, itemFalsy] at h
  | some s =>
    rw [hget] at h
    by_cases hf : itemFalsy (some s) = true
    · simp [hf] at h
    · simp only [hf, if_false, Option.getD_some] at h
      simp only [jsonParseItem]
      cases hp : P.jsonParse s with
      | none => simp [hp] at h
      | some v =>
        rw [hp] at h
        cases he : objectEntries P v with
        | error e => simp [he] at h
        | ok es =>
          exact ⟨P.jsonStringify (objectFromEntries
            (es.filter (fun p => if sections.contains p.1 then false else true))),
            by simp only [he]⟩

/-- The successful path of `storeUpdatedSections` on an object response and a prior
blob that reads as the object with own properties `B`. -/
theorem storeUpdatedSections_success (P : Platform) (now : Int)
    (sections : List String) (u B : List (String × JSVal)) (w : World)
    (hB : readCacheForMerge P w = .obj B)
    (hinv : ∀ s v, getItem w.localStorage COMMERCE_CACHE_INVALIDATION_KEY = some s →
      P.jsonParse s = some v → v.nullish = false) :
    ∃ w1, storeUpdatedSections P now sections (.obj u) w = .ok w1
      ∧ getItem w1.localStorage COMMERCE_CACHE_STORAGE_KEY
        = some (P.jsonStringify (.obj (mergeProps B u))) := by
  have hkey1 : COMMERCE_CACHE_TIMEOUT_KEY ≠ COMMERCE_CACHE_STORAGE_KEY := by decide
  have hkey2 : COMMERCE_CACHE_INVALIDATION_KEY ≠ COMMERCE_CACHE_STORAGE_KEY := by decide
  generalize hw1 : ({ w with cookie := P.assignCookie w.cookie (sessionCookieText P now w) }
    : World) = w1
  have hls : w1.localStorage = w.localStorage := by rw [← hw1]
  have hread : readCacheForMerge P w1 = .obj B := by
    rw [← hB]
    simp [readCacheForMerge, hls]
  obtain ⟨b, hb⟩ : ∃ b, isMagentoCacheInvalidated P sections w1 = .ok b := by
    apply isMagentoCacheInvalidated_ok
    rw [hls]
    exact hinv
  simp only [storeUpdatedSections, objectEntries, hw1, hread, assignAll_obj, hb]
  cases b with
  | false =>
    refine ⟨_, rfl, ?_⟩
    simp only [Bool.false_eq_true, if_false]
    rw [getItem_setItem_ne _ _ _ _ hkey1, getItem_setItem_self]
  | true =>
    obtain ⟨blob, hr⟩ := removeMagentoCacheInvalidations_ok P sections _ hb
    simp only [if_true, hr]
    refine ⟨_, rfl, ?_⟩
    rw [getItem_setItem_ne _ _ _ _ hkey1, getItem_setItem_self]

/-- Claim C5 fails as stated: the response has the one key `__proto__` and no blob is
stored. The assignment `magentoCache['__proto__'] = value` reaches the setter of
`Object.prototype` and defines no own property, so the blob written is the
serialization of the empty object: it does not map the key of the response to its
payload. -/
theorem updateMagentoCacheSections_drops_proto :
    ∃ w1, updateMagentoCacheSections samplePlatform 0 ["cart"]
        (.response true (some (.obj [("__proto__", .obj [("cart_id", .str "c1")])])))
        emptyWorld = .ok w1
      ∧ getItem w1.localStorage COMMERCE_CACHE_STORAGE_KEY
          = some (samplePlatform.jsonStringify (.obj []))
      ∧ samplePlatform.jsonStringify (.obj []) = "\x7b\x7d" :=
  ⟨_, rfl, rfl, rfl⟩

/-- Claim C5, amended. For a successful section response that is an object with own
properties `u` (distinct names), and a prior stored blob that is absent, rejected by
`JSON.parse` or an object with own properties `B` (`B` empty in the first two cases),
`updateMagentoCacheSections` completes and the blob it writes is the serialization of an
object `M` such that: every name of `u` other than `__proto__` is mapped to its new
payload, and so is `__proto__` when `B` has an own property of that name; when `B` has
none, `M` has no property `__proto__` either; every name outside `u` is mapped to what
`B` holds for it; and `M` has no name outside `u` and `B`. The call reaches the write
unless the invalidation metadata parses to `null`, which `hinv` excludes. -/
theorem updateMagentoCacheSections_merge (P : Platform) (now : Int)
    (sections : List String) (u B : List (String × JSVal)) (w : World)
    (hu : (u.map Prod.fst).Nodup)
    (hB : (getItem w.localStorage COMMERCE_CACHE_STORAGE_KEY = none ∧ B = [])
      ∨ (∃ s, getItem w.localStorage COMMERCE_CACHE_STORAGE_KEY = some s
          ∧ P.jsonParse s = none ∧ B = [])
      ∨ (∃ s, getItem w.localStorage COMMERCE_CACHE_STORAGE_KEY = some s
          ∧ P.jsonParse s = some (.obj B)))
    (hinv : ∀ s v, getItem w.localStorage COMMERCE_CACHE_INVALIDATION_KEY = some s →
      P.jsonParse s = some v → v.nullish = false) :
    ∃ w1 M,
      updateMagentoCacheSections P now sections (.response true (some (.obj u))) w = .ok w1
      ∧ getItem w1.localStorage COMMERCE_CACHE_STORAGE_KEY = some (P.jsonStringify (.obj M))
      ∧ (∀ k v, (k, v) ∈ u → (k ≠ "__proto__" ∨ (propLookup k B).isSome = true) →
          propLookup k M = some v)
      ∧ (propLookup "__proto__" B = none → propLookup "__proto__" M = none)
      ∧ (∀ k, k ∉ u.map Prod.fst → propLookup k M = propLookup k B)
      ∧ (∀ k, k ∈ M.map Prod.fst → k ∈ u.map Prod.fst ∨ k ∈ B.map Prod.fst) := by
  have hread : readCacheForMerge P (requestSections sections w) = .obj B := by
    simp only [readCacheForMerge, requestSections]
    rcases hB with ⟨h, rfl⟩ | ⟨s, h, hp, rfl⟩ | ⟨s, h, hp⟩
    · simp [h, jsonParseItem, JSVal.truthy, JSVal.emptyObject]
    · simp [h, jsonParseItem, hp, JSVal.emptyObject]
    · simp [h, jsonParseItem, hp, JSVal.truthy]
  obtain ⟨w1, hrun, hblob⟩ :=
    storeUpdatedSections_success P now sections u B (requestSections sections w) hread hinv
  refine ⟨w1, mergeProps B u, ?_, hblob, ?_, ?_, ?_, ?_⟩
  · simpa only [updateMagentoCacheSections] using hrun
  · intro k v hmem hk
    exact propLookup_mergeProps_of_mem B u k v hmem hu hk
  · intro hnone
    exact propLookup_mergeProps_proto B u hnone
  · intro k hk
    exact propLookup_mergeProps_of_not_mem B u k hk
  · intro k hk
    exact mem_keys_mergeProps B u k hk

set_option maxRecDepth 20000 in
/-- Witness of the amended C5: a response with a cart section is merged into a blob
that holds a customer section and an older cart section; the cart section is replaced
and the customer section is kept. -/
theorem updateMagentoCacheSections_merge_witness :
    ∃ w1 M,
      updateMagentoCacheSections samplePlatform 0 ["cart"]
        (.response true (some (.obj cartResponse))) twoSectionWorld = .ok w1
      ∧ getItem w1.localStorage COMMERCE_CACHE_STORAGE_KEY
          = some (samplePlatform.jsonStringify (.obj M))
      ∧ (∀ k v, (k, v) ∈ cartResponse →
          (k ≠ "__proto__" ∨ (propLookup k twoSections).isSome = true) →
          propLookup k M = some v)
      ∧ (propLookup "__proto__" twoSections = none → propLookup "__proto__" M = none)
      ∧ (∀ k, k ∉ cartResponse.map Prod.fst → propLookup k M = propLookup k twoSections)
      ∧ (∀ k, k ∈ M.map Prod.fst → k ∈ cartResponse.map Prod.fst
          ∨ k ∈ twoSections.map Prod.fst) :=
  updateMagentoCacheSections_merge samplePlatform 0 ["cart"] cartResponse
    twoSections twoSectionWorld
    (by decide)
    (Or.inr (Or.inr ⟨twoSectionBlob, by decide, by rfl⟩))
    (fun s _ h _ => Option.noConfusion (h : none = some s))

/-- Claim C6. If the section fetch fails (`fetch` rejects or is aborted, the response
is not ok, or its body cannot be read as JSON), `updateMagentoCacheSections` completes
without throwing; local storage (cache blob, timeout metadata, invalidation map), the
cookie string and the list of dispatched storage events are as they were: only the
issued request is new in the world. -/
theorem updateMagentoCacheSections_failure (P : Platform) (now : Int)
    (sections : List String) (resp : FetchOutcome) (w : World)
    (h : resp = .rejected ∨ (∃ body, resp = .response false body)
      ∨ resp = .response true none) :
    ∃ w1, updateMagentoCacheSections P now sections resp w = .ok w1
      ∧ w1 = requestSections sections w
      ∧ w1.localStorage = w.localStorage
      ∧ w1.cookie = w.cookie
      ∧ w1.events = w.events := by
  refine ⟨requestSections sections w, ?_, rfl, rfl, rfl, rfl⟩
  rcases h with rfl | ⟨body, rfl⟩ | rfl <;> rfl

/-- Witness of C6: an aborted fetch on a world that holds a customer section. -/
theorem updateMagentoCacheSections_failure_witness :
    ∃ w1, updateMagentoCacheSections samplePlatform 0 ["cart"] .rejected customerWorld
        = .ok w1
      ∧ w1 = requestSections ["cart"] customerWorld
      ∧ w1.localStorage = customerWorld.localStorage
      ∧ w1.cookie = customerWorld.cookie
      ∧ w1.events = customerWorld.events :=
  updateMagentoCacheSections_failure samplePlatform 0 ["cart"] .rejected customerWorld
    (Or.inl rfl)

/-! ### addToCart: the total quantity -/

theorem filter_isSome_eq_map_some (rawItems : List (Option CartItem)) :
    rawItems.filter (fun item => item.isSome) = (survivingItems rawItems).map some := by
  induction rawItems with
  | nil => rfl
  | cons item rest ih =>
    cases item with
    | none => simpa [survivingItems] using ih
    | some i => simpa [survivingItems] using ih

theorem flatMap_quantity_map_some (items : List CartItem) :
    (items.map some).flatMap (fun item => match item with
      | some i => [i.quantity]
      | none => []) = items.map CartItem.quantity := by
  induction items with
  | nil => rfl
  | cons i rest ih => simpa using ih

/-- Claim C7 fails as stated: the backend reports a total of 1 and the only entry of
`items` is `null`; no item survives, the sum of the surviving quantities is 0, and
`total_quantity` is left at 1, which `!==` tells apart from 0. -/
theorem recomputeTotalQuantity_no_survivor :
    recomputeTotalQuantity samplePlatform
        { id := "c1", items := some [none], total_quantity := .finite 1 }
        = .ok { id := "c1", items := some [], total_quantity := .finite 1 }
      ∧ survivingQuantity samplePlatform [none] = .finite 0
      ∧ Double.strictNe (.finite 1) (.finite 0) = true := by
  refine ⟨rfl, rfl, ?_⟩
  simp [Double.strictNe]

/-- Claim C7, amended. For every cart returned by the mutation whose `items` is a list,
the block of `addToCart` at lines 259-271 completes and `cart.items` holds exactly the
non-null entries. When no item survives, `cart.total_quantity` is the total the backend
reported. When at least one item survives, let the sum be the quantities of the
surviving items added as doubles, left to right from 0: `cart.total_quantity` is that
sum when the sum `!==` the reported total, and the reported total when the two are
`===`; so, whatever total the backend reported, `cart.total_quantity` is the sum or a
value `===` to it. -/
theorem recomputeTotalQuantity_spec (P : Platform) (id : String)
    (rawItems : List (Option CartItem)) (total : Double) :
    recomputeTotalQuantity P { id := id, items := some rawItems, total_quantity := total }
      = .ok { id := id,
              items := some ((survivingItems rawItems).map some),
              total_quantity :=
                if (survivingItems rawItems).length = 0 then total
                else if Double.strictNe (survivingQuantity P rawItems) total then
                  survivingQuantity P rawItems
                else total }
    ∧ ((survivingItems rawItems).length ≠ 0 →
        ∃ cart, recomputeTotalQuantity P
            { id := id, items := some rawItems, total_quantity := total } = .ok cart
          ∧ (cart.total_quantity = survivingQuantity P rawItems
            ∨ Double.strictNe (survivingQuantity P rawItems) cart.total_quantity = false)) := by
  have hrun : recomputeTotalQuantity P
      { id := id, items := some rawItems, total_quantity := total }
      = .ok { id := id,
              items := some ((survivingItems rawItems).map some),
              total_quantity :=
                if (survivingItems rawItems).length = 0 then total
                else if Double.strictNe (survivingQuantity P rawItems) total then
                  survivingQuantity P rawItems
                else total } := by
    simp only [recomputeTotalQuantity, filter_isSome_eq_map_some,
      flatMap_quantity_map_some, List.length_map]
    by_cases h : (survivingItems rawItems).length = 0
    · simp [h]
    · have hpos : (survivingItems rawItems).length > 0 := Nat.pos_of_ne_zero h
      simp only [hpos, if_true, h, if_false, survivingQuantity]
      by_cases hq : Double.strictNe
          (((survivingItems rawItems).map CartItem.quantity).foldl P.addDouble
            (Double.finite 0)) total = true
      · simp only [hq, if_true]
      · simp only [hq, if_false, Bool.false_eq_true]
  refine ⟨hrun, fun hne => ⟨_, hrun, ?_⟩⟩
  simp only [hne, if_false]
  by_cases hq : Double.strictNe (survivingQuantity P rawItems) total = true
  · left
    simp [hq]
  · right
    simp [hq]

/-- The scenario of the specification: the backend reports `total_quantity: 1` with one
item of quantity 2, and the total becomes 2. -/
theorem recomputeTotalQuantity_scenario :
    recomputeTotalQuantity samplePlatform
        { id := "c1",
          items := some [some { uid := "u1", sku := "A", quantity := .finite 2 }],
          total_quantity := .finite 1 }
      = .ok { id := "c1",
              items := some [some { uid := "u1", sku := "A", quantity := .finite 2 }],
              total_quantity := .finite 2 } := by
  rw [(recomputeTotalQuantity_spec samplePlatform "c1"
    [some { uid := "u1", sku := "A", quantity := .finite 2 }] (.finite 1)).1]
  simp [survivingItems, survivingQuantity, samplePlatform, Double.strictNe]

/-! ### The cart store -/

/-- The method `getCart` writes nothing but `cartId`. -/
theorem getCart_snd (P : Platform) (now : Int) (w : World) :
    (getCart P now w).2 = { w with cartId := (getCart P now w).2.cartId } := by
  unfold getCart
  split
  · rfl
  · split
    · split
      · rfl
      · split <;> rfl
    · rfl

/-- The cache snapshot depends on local storage and the cookie string only. -/
theorem getMagentoCache_congr (P : Platform) (now : Int) (w w1 : World)
    (hs : w1.localStorage = w.localStorage) (hc : w1.cookie = w.cookie) :
    getMagentoCache P now w1 = getMagentoCache P now w := by
  simp only [getMagentoCache, isMagentoLocalStorageExpired, hs, hc]

/-- The projected cart depends on local storage and the cookie string only. -/
theorem getCart_fst_congr (P : Platform) (now : Int) (w w1 : World)
    (hs : w1.localStorage = w.localStorage) (hc : w1.cookie = w.cookie) :
    (getCart P now w1).1 = (getCart P now w).1 := by
  unfold getCart getCartFromLocalStorage
  rw [getMagentoCache_congr P now w w1 hs hc]
  split
  · rfl
  · split
    · split
      · rfl
      · split <;> rfl
    · rfl

theorem getCart_delivered (P : Platform) (now : Int) (w : World) :
    (getCart P now w).2.delivered = w.delivered := by
  rw [getCart_snd]

theorem getCart_releases (P : Platform) (now : Int) (w : World) :
    (getCart P now w).2.releases = w.releases := by
  rw [getCart_snd]

theorem invokedCallbacks_of_quiet (throwsOn : Nat → JSVal → Bool) (arg : JSVal)
    (hs : List Nat) (hquiet : ∀ h ∈ hs, throwsOn h arg = false) :
    invokedCallbacks throwsOn arg hs = hs := by
  induction hs with
  | nil => rfl
  | cons h rest ih =>
    have h1 : throwsOn h arg = false := hquiet h (List.mem_cons_self _ _)
    have h2 : ∀ x ∈ rest, throwsOn x arg = false :=
      fun x hx => hquiet x (List.mem_cons_of_mem _ hx)
    simp [invokedCallbacks, h1, ih h2]

/-- The invoked callbacks when the first one that throws is at position `i`. -/
theorem invokedCallbacks_of_first_throw (throwsOn : Nat → JSVal → Bool) (arg : JSVal)
    (hs : List Nat) (i : Nat) (hi : i < hs.length)
    (hthrow : throwsOn (hs.get ⟨i, hi⟩) arg = true)
    (hbefore : ∀ j (hj : j < hs.length), j < i → throwsOn (hs.get ⟨j, hj⟩) arg = false) :
    invokedCallbacks throwsOn arg hs = hs.take (i + 1) := by
  induction hs generalizing i with
  | nil => simp at hi
  | cons h rest ih =>
    cases i with
    | zero =>
      have h0 : throwsOn h arg = true := by simpa using hthrow
      simp [invokedCallbacks, h0]
    | succ n =>
      have h0 : throwsOn h arg = false := by
        simpa using hbefore 0 (by simp) (by omega)
      have hn : n < rest.length := by simpa using hi
      have h1 : throwsOn (rest.get ⟨n, hn⟩) arg = true := by simpa using hthrow
      have h2 : ∀ j (hj : j < rest.length), j < n →
          throwsOn (rest.get ⟨j, hj⟩) arg = false := by
        intro j hj hjn
        simpa using hbefore (j + 1) (by simpa using hj) (by omega)
      simp [invokedCallbacks, h0, ih n hn h1 h2]

/-- The loop of `resetCart`: the callbacks invoked with `{}` are recorded, nothing else
changes, and the loop ends by an exception exactly when a callback throws. -/
theorem resetEach_eq (throwsOn : Nat → JSVal → Bool) (hs : List Nat) (w : World) :
    resetEach throwsOn hs w =
      (if hs.any (fun h => throwsOn h JSVal.emptyObject) then Except.error else Except.ok)
        { w with delivered := (w.delivered
            ++ (invokedCallbacks throwsOn JSVal.emptyObject hs).map
                (fun h => (h, JSVal.emptyObject))) } := by
  induction hs generalizing w with
  | nil => simp [resetEach, invokedCallbacks]
  | cons h rest ih =>
    by_cases h1 : throwsOn h JSVal.emptyObject = true
    · simp [resetEach, invokeCallback, invokedCallbacks, h1]
    · simp [resetEach, invokeCallback, invokedCallbacks, h1, ih]

/-- The loop of `notifySubscribers`: the callbacks invoked are recorded with the
projected cart. -/
theorem notifyEach_delivered (throwsOn : Nat → JSVal → Bool) (P : Platform) (now : Int)
    (hs : List Nat) (w : World) :
    (resultWorld (notifyEach throwsOn P now hs w)).delivered
      = w.delivered ++ (invokedCallbacks throwsOn (getCart P now w).1 hs).map
          (fun h => (h, (getCart P now w).1)) := by
  induction hs generalizing w with
  | nil => simp [notifyEach, invokedCallbacks, resultWorld]
  | cons h rest ih =>
    by_cases h1 : throwsOn h (getCart P now w).1 = true
    · simp [notifyEach, invokeCallback, invokedCallbacks, h1, resultWorld,
        getCart_delivered]
    · have hsnd := getCart_snd P now w
      simp only [notifyEach, invokeCallback, invokedCallbacks, h1, if_false,
        Bool.false_eq_true]
      rw [ih]
      have hc : (getCart P now
          { (getCart P now w).2 with
            delivered := (getCart P now w).2.delivered ++ [(h, (getCart P now w).1)] }).1
          = (getCart P now w).1 := by
        apply getCart_fst_congr
        · rw [hsnd]
        · rw [hsnd]
      rw [hc, hsnd]
      simp

/-- The loop of `notifySubscribers` ends by an exception exactly when one of the
callbacks throws on the projected cart. -/
theorem notifyEach_ok_iff (throwsOn : Nat → JSVal → Bool) (P : Platform) (now : Int)
    (hs : List Nat) (w : World) :
    (∃ w1, notifyEach throwsOn P now hs w = .ok w1)
      ↔ ∀ h ∈ hs, throwsOn h (getCart P now w).1 = false := by
  induction hs generalizing w with
  | nil => simp [notifyEach]
  | cons h rest ih =>
    by_cases h1 : throwsOn h (getCart P now w).1 = true
    · simp [notifyEach, invokeCallback, h1]
    · have hsnd := getCart_snd P now w
      have hc : (getCart P now
          { (getCart P now w).2 with
            delivered := (getCart P now w).2.delivered ++ [(h, (getCart P now w).1)] }).1
          = (getCart P now w).1 := by
        apply getCart_fst_congr
        · rw [hsnd]
        · rw [hsnd]
      simp only [notifyEach, invokeCallback, h1, if_false, Bool.false_eq_true, ih, hc]
      simp [h1]

/-- Claim C10 fails as stated: callbacks 7 and 8 are subscribed, callback 7 throws, and
`notifySubscribers` ends with callback 7 as the only one invoked: callback 8 does not
run. -/
theorem notifySubscribers_skips_after_throw :
    sessionWorld.subscribers = [7, 8]
      ∧ faultyCallbacks 7 (getCart samplePlatform 0 sessionWorld).1 = true
      ∧ (resultWorld (notifySubscribers faultyCallbacks samplePlatform 0
          sessionWorld)).delivered = [(7, DEFAULT_CART)] := by
  refine ⟨rfl, rfl, rfl⟩

/-- Claim C10, amended. If the first subscriber callback that throws on the projected
current cart is the one at position `i`, `notifySubscribers` ends by that exception;
the callbacks at the positions up to `i` have been invoked, in order, with the
projected current cart, and no callback after position `i` is invoked. -/
theorem notifySubscribers_until_throw (throwsOn : Nat → JSVal → Bool) (P : Platform)
    (now : Int) (w : World) (i : Nat) (hi : i < w.subscribers.length)
    (hthrow : throwsOn (w.subscribers.get ⟨i, hi⟩) (getCart P now w).1 = true)
    (hbefore : ∀ j (hj : j < w.subscribers.length), j < i →
      throwsOn (w.subscribers.get ⟨j, hj⟩) (getCart P now w).1 = false) :
    ∃ w1, notifySubscribers throwsOn P now w = .error w1
      ∧ w1.delivered = w.delivered
          ++ (w.subscribers.take (i + 1)).map (fun h => (h, (getCart P now w).1)) := by
  have hd := notifyEach_delivered throwsOn P now w.subscribers w
  rw [invokedCallbacks_of_first_throw throwsOn _ w.subscribers i hi hthrow hbefore] at hd
  unfold notifySubscribers
  cases hres : notifyEach throwsOn P now w.subscribers w with
  | ok w1 =>
    have hall := (notifyEach_ok_iff throwsOn P now w.subscribers w).mp ⟨w1, hres⟩
    have hno := hall _ (List.get_mem w.subscribers i hi)
    rw [hthrow] at hno
    exact absurd hno (by simp)
  | error w1 =>
    rw [hres] at hd
    exact ⟨w1, rfl, hd⟩

/-- Witness of the amended C10: the first subscriber throws, and it is the only one
invoked. -/
theorem notifySubscribers_until_throw_witness :
    ∃ w1, notifySubscribers faultyCallbacks samplePlatform 0 sessionWorld = .error w1
      ∧ w1.delivered = sessionWorld.delivered
          ++ (sessionWorld.subscribers.take (0 + 1)).map
              (fun h => (h, (getCart samplePlatform 0 sessionWorld).1)) :=
  notifySubscribers_until_throw faultyCallbacks samplePlatform 0 sessionWorld 0
    (by decide) rfl (fun j _ hlt => absurd hlt (Nat.not_lt_zero j))

/-! ### addToCart: reset on a missing cart, and the busy state -/

theorem resultWorld_ite (c : Prop) [Decidable c] (w : World) :
    resultWorld ((if c then Except.error else Except.ok) w) = w := by
  by_cases h : c <;> simp [h, resultWorld]

theorem resetCart_releases (throwsOn : Nat → JSVal → Bool) (w : World) :
    (resultWorld (resetCart throwsOn w)).releases = w.releases := by
  unfold resetCart
  rw [resetEach_eq, resultWorld_ite]

theorem handleCartErrors_releases (throwsOn : Nat → JSVal → Bool)
    (errors : Option (List GqlError)) (w : World) :
    (resultWorld (handleCartErrors throwsOn errors w)).releases = w.releases := by
  unfold handleCartErrors
  split
  · rfl
  · split
    · exact resetCart_releases throwsOn w
    · split
      · exact resetCart_releases throwsOn w
      · split <;> rfl

theorem notifyEach_releases (throwsOn : Nat → JSVal → Bool) (P : Platform) (now : Int)
    (hs : List Nat) (w : World) :
    (resultWorld (notifyEach throwsOn P now hs w)).releases = w.releases := by
  induction hs generalizing w with
  | nil => rfl
  | cons h rest ih =>
    by_cases h1 : throwsOn h (getCart P now w).1 = true
    · simp [notifyEach, invokeCallback, h1, resultWorld, getCart_releases]
    · simp only [notifyEach, invokeCallback, h1, if_false, Bool.false_eq_true]
      rw [ih]
      exact getCart_releases P now w

theorem removeMagentoCacheInvalidations_releases (P : Platform) (sections : List String)
    (w : World) :
    (resultWorld (removeMagentoCacheInvalidations P sections w)).releases = w.releases := by
  unfold removeMagentoCacheInvalidations
  split
  · rfl
  · split <;> rfl

theorem storeUpdatedSections_releases (P : Platform) (now : Int) (sections : List String)
    (updatedSections : JSVal) (w : World) :
    (resultWorld (storeUpdatedSections P now sections updatedSections w)).releases
      = w.releases := by
  have hrem : ∀ (b : Bool) (w1 : World),
      (resultWorld (if b = true then removeMagentoCacheInvalidations P sections w1
        else Except.ok w1)).releases = w1.releases := by
    intro b w1
    cases b with
    | false => rfl
    | true => exact removeMagentoCacheInvalidations_releases P sections w1
  unfold storeUpdatedSections
  simp only []
  split
  · rfl
  · split
    · rfl
    · split
      · rfl
      · rename_i invalidated _
        split
        · rename_i w2 heq
          have h2 := hrem invalidated
            { w with cookie := P.assignCookie w.cookie (sessionCookieText P now w) }
          rw [heq] at h2
          exact h2
        · rename_i w2 heq
          have h2 := hrem invalidated
            { w with cookie := P.assignCookie w.cookie (sessionCookieText P now w) }
          rw [heq] at h2
          exact h2

theorem updateMagentoCacheSections_releases (P : Platform) (now : Int)
    (sections : List String) (resp : FetchOutcome) (w : World) :
    (resultWorld (updateMagentoCacheSections P now sections resp w)).releases
      = w.releases := by
  unfold updateMagentoCacheSections
  split
  · rfl
  · rfl
  · rfl
  · rfl
  · exact storeUpdatedSections_releases P now sections _ (requestSections sections w)

theorem updateCart_releases (throwsOn : Nat → JSVal → Bool) (P : Platform) (now : Int)
    (refresh : FetchOutcome) (w : World) :
    (resultWorld (updateCart throwsOn P now refresh w)).releases = w.releases := by
  have h1 := updateMagentoCacheSections_releases P now ["cart"] refresh w
  unfold updateCart
  cases hr : updateMagentoCacheSections P now ["cart"] refresh w with
  | error w1 =>
    rw [hr] at h1
    exact h1
  | ok w1 =>
    rw [hr] at h1
    simp only [notifySubscribers]
    rw [notifyEach_releases]
    exact h1

theorem addToCartBody_releases (throwsOn : Nat → JSVal → Bool) (P : Platform) (now : Int)
    (sku : String) (options : List String) (quantity : ℚ)
    (query : QueryOutcome) (refresh : FetchOutcome) (w : World) :
    (resultWorld (addToCartBody throwsOn P now sku options quantity query refresh w)).releases
      = w.releases := by
  unfold addToCartBody
  split
  · rfl
  · simp only []
    split
    · rfl
    · rfl
    · rename_i r
      have hh := handleCartErrors_releases throwsOn r.errors
        { w with requests := w.requests
            ++ [Request.addProductsToCart (by assumption) sku options quantity] }
      split
      · rename_i w2 heq
        rw [heq] at hh
        exact hh
      · rename_i w2 heq
        rw [heq] at hh
        have hu := updateCart_releases throwsOn P now refresh w2
        split
        · exact hh
        · split
          · exact hh
          · split
            · exact hh
            · split
              · exact hh
              · split
                · rename_i w3 heq3
                  rw [heq3] at hu
                  exact hu.trans hh
                · rename_i w3 heq3
                  rw [heq3] at hu
                  exact hu.trans hh

/-- The function `addToCart` always completes normally, in the world in which the `try`
block ended, with the release callback applied. -/
theorem addToCart_eq (throwsOn : Nat → JSVal → Bool) (P : Platform) (now : Int)
    (sku : String) (options : List String) (quantity : ℚ)
    (query : QueryOutcome) (refresh : FetchOutcome) (w : World) :
    addToCart throwsOn P now sku options quantity query refresh w
      = .ok (releaseCart (resultWorld
          (addToCartBody throwsOn P now sku options quantity query refresh
            (waitForCart w)))) := by
  unfold addToCart
  split <;> rename_i heq <;> rw [heq] <;> rfl

/-- The reset of the store when no subscriber callback throws on `{}`. -/
theorem resetCart_of_quiet (throwsOn : Nat → JSVal → Bool) (w : World)
    (hquiet : ∀ h ∈ w.subscribers, throwsOn h JSVal.emptyObject = false) :
    resetCart throwsOn w = .ok { w with
      cartId := JSVal.null,
      delivered := (w.delivered ++ w.subscribers.map (fun h => (h, JSVal.emptyObject))) } := by
  have hany : (w.subscribers.any (fun h => throwsOn h JSVal.emptyObject)) = false := by
    rw [List.any_eq_false]
    intro h hmem
    simp [hquiet h hmem]
  unfold resetCart
  rw [resetEach_eq]
  simp only [hany, Bool.false_eq_true, if_false]
  rw [invokedCallbacks_of_quiet throwsOn _ _ hquiet]

/-- Claim C8 fails as stated, in two ways. First: the response carries a
`graphql-no-such-entity` error next to a cart; the store is reset, and then processing
goes on: the cache refresh is requested and the subscribers 7 and 8 are notified again,
so that the last value delivered to each is the default cart, not `{}`. Second: the
response carries the error and no payload, and callback 7 throws on `{}`; the reset
stops there and subscriber 8 is never given `{}`. -/
theorem addToCart_reset_not_final :
    (resultWorld (addToCart quietCallbacks samplePlatform 0 "SKU" [] 1
        entityErrorWithCart .rejected sessionWorld)).delivered
        = [(7, JSVal.emptyObject), (8, JSVal.emptyObject),
           (7, DEFAULT_CART), (8, DEFAULT_CART)]
      ∧ (resultWorld (addToCart quietCallbacks samplePlatform 0 "SKU" [] 1
        entityErrorWithCart .rejected sessionWorld)).requests
        = [Request.addProductsToCart (.str "c1") "SKU" [] 1, Request.sectionLoad ["cart"]]
      ∧ (resultWorld (addToCart faultyCallbacks samplePlatform 0 "SKU" [] 1
        entityErrorNoPayload .rejected sessionWorld)).delivered
        = [(7, JSVal.emptyObject)] := by
  refine ⟨rfl, rfl, rfl⟩

/-- Claim C8, amended. For every `addToCart` call whose request is issued and whose
response carries an error of category `graphql-no-such-entity` or
`graphql-authorization` and no `addProductsToCart` payload (`data` or
`data.addProductsToCart` is `null`), when no subscriber callback throws on `{}`: the
store is reset and processing is aborted. When the call completes the store's cart
identifier is `null`, every registered subscriber has been invoked once more, with the
empty object `{}`, and that is the last value delivered to it; no section request was
issued, and local storage, the cookie string and the storage events are unchanged. -/
theorem addToCart_reset_aborts (throwsOn : Nat → JSVal → Bool) (P : Platform) (now : Int)
    (sku : String) (options : List String) (quantity : ℚ) (refresh : FetchOutcome)
    (w : World) (cartId : JSVal) (es : List GqlError) (d : Option QueryData)
    (hid : getCartIdFromLocalStorage P now (waitForCart w) = .ok cartId)
    (herr : hasCategory es "graphql-no-such-entity" = true
      ∨ hasCategory es "graphql-authorization" = true)
    (hdata : d = none ∨ d = some (QueryData.mk none))
    (hquiet : ∀ h ∈ w.subscribers, throwsOn h JSVal.emptyObject = false) :
    ∃ w1, addToCart throwsOn P now sku options quantity
        (.resolved (some { data := d, errors := some es })) refresh w = .ok w1
      ∧ w1.cartId = JSVal.null
      ∧ w1.delivered = w.delivered ++ w.subscribers.map (fun h => (h, JSVal.emptyObject))
      ∧ w1.requests = w.requests ++ [Request.addProductsToCart cartId sku options quantity]
      ∧ w1.localStorage = w.localStorage
      ∧ w1.cookie = w.cookie
      ∧ w1.events = w.events := by
  have hreset : ∀ w0 : World, w0.subscribers = w.subscribers →
      handleCartErrors throwsOn (some es) w0 = .ok { w0 with
        cartId := JSVal.null,
        delivered := (w0.delivered
          ++ w0.subscribers.map (fun h => (h, JSVal.emptyObject))) } := by
    intro w0 hsub
    have hq : ∀ h ∈ w0.subscribers, throwsOn h JSVal.emptyObject = false := by
      rw [hsub]
      exact hquiet
    unfold handleCartErrors
    rcases herr with h1 | h1
    · simp only [h1, if_true]
      exact resetCart_of_quiet throwsOn w0 hq
    · by_cases h0 : hasCategory es "graphql-no-such-entity" = true
      · simp only [h0, if_true]
        exact resetCart_of_quiet throwsOn w0 hq
      · simp only [h0, h1, if_true, if_false]
        exact resetCart_of_quiet throwsOn w0 hq
  rw [addToCart_eq]
  refine ⟨_, rfl, ?_⟩
  unfold addToCartBody
  simp only [hid]
  have hr := hreset
    { waitForCart w with
      requests := (waitForCart w).requests
        ++ [Request.addProductsToCart cartId sku options quantity] } rfl
  rw [hr]
  rcases hdata with rfl | rfl <;>
    exact ⟨rfl, rfl, rfl, rfl, rfl, rfl⟩

/-- Witness of the amended C8: a `graphql-no-such-entity` error without payload, on a
world with the cart identifier `c1` and two quiet subscribers. -/
theorem addToCart_reset_aborts_witness :
    ∃ w1, addToCart quietCallbacks samplePlatform 0 "SKU" [] 1
        (.resolved (some { data := some (QueryData.mk none),
                           errors := some [GqlError.mk (some "graphql-no-such-entity")] }))
        .rejected sessionWorld = .ok w1
      ∧ w1.cartId = JSVal.null
      ∧ w1.delivered = sessionWorld.delivered
          ++ sessionWorld.subscribers.map (fun h => (h, JSVal.emptyObject))
      ∧ w1.requests = sessionWorld.requests
          ++ [Request.addProductsToCart (.str "c1") "SKU" [] 1]
      ∧ w1.localStorage = sessionWorld.localStorage
      ∧ w1.cookie = sessionWorld.cookie
      ∧ w1.events = sessionWorld.events :=
  addToCart_reset_aborts quietCallbacks samplePlatform 0 "SKU" [] 1 .rejected sessionWorld
    (.str "c1") [GqlError.mk (some "graphql-no-such-entity")] (some (QueryData.mk none))
    rfl (Or.inl rfl) (Or.inr rfl) (fun _ _ => rfl)

/-- Claim C9. Whatever the backend mutation and the cache refresh settle to, whatever
the stored state and the subscriber callbacks do, `addToCart` completes without
throwing, the release callback returned by `waitForCart` has been invoked exactly once
and the busy state is cleared. -/
theorem addToCart_releases_once (throwsOn : Nat → JSVal → Bool) (P : Platform) (now : Int)
    (sku : String) (options : List String) (quantity : ℚ)
    (query : QueryOutcome) (refresh : FetchOutcome) (w : World) :
    ∃ w1, addToCart throwsOn P now sku options quantity query refresh w = .ok w1
      ∧ w1.releases = w.releases + 1
      ∧ w1.loading = false := by
  rw [addToCart_eq]
  refine ⟨_, rfl, ?_, rfl⟩
  simp only [releaseCart]
  rw [addToCartBody_releases]
  rfl

/-! ### subscribe -/

/-- Claim C11. For every store state and callback `cb`, `subscribe(cb)` appends `cb` at
the end of the subscriber list, the earlier entries unchanged and in order, and invokes
`cb` exactly once, with the current projected cart `getCart()`; no other subscriber is
invoked. This holds whether `cb` returns or throws. -/
theorem subscribe_appends_and_invokes (throwsOn : Nat → JSVal → Bool) (P : Platform)
    (now : Int) (cb : Nat) (w : World) :
    (resultWorld (subscribe throwsOn P now cb w)).subscribers = w.subscribers ++ [cb]
      ∧ (resultWorld (subscribe throwsOn P now cb w)).delivered
          = w.delivered ++ [(cb, (getCart P now w).1)] := by
  have hc : (getCart P now { w with subscribers := w.subscribers ++ [cb] }).1
      = (getCart P now w).1 := getCart_fst_congr P now w _ rfl rfl
  have hs := getCart_snd P now { w with subscribers := w.subscribers ++ [cb] }
  unfold subscribe invokeCallback
  simp only [hc]
  by_cases ht : throwsOn cb (getCart P now w).1 = true
  · simp only [ht, if_true, resultWorld]
    rw [hs]
    exact ⟨rfl, rfl⟩
  · simp only [ht, if_false, Bool.false_eq_true, resultWorld]
    rw [hs]
    exact ⟨rfl, rfl⟩

set_option maxRecDepth 20000 in
/-- The scenario of the specification for C11: the cached cart has quantity 5, callback
7 is subscribed; `subscribe(9)` makes the list `[7, 9]` and delivers to callback 9,
and to no other, a cart whose `total_quantity` is 5. -/
theorem subscribe_scenario :
    (resultWorld (subscribe quietCallbacks samplePlatform 0 9 cartWorld)).subscribers
        = [7, 9]
      ∧ (resultWorld (subscribe quietCallbacks samplePlatform 0 9 cartWorld)).delivered
        = [(9, (getCart samplePlatform 0 cartWorld).1)]
      ∧ getProp (getCart samplePlatform 0 cartWorld).1 "total_quantity" = .ok (.num 5) :=
  ⟨(subscribe_appends_and_invokes quietCallbacks samplePlatform 0 9 cartWorld).1,
   (subscribe_appends_and_invokes quietCallbacks samplePlatform 0 9 cartWorld).2,
   rfl⟩

/-! ### transformCart -/

/-- Mapping a function that succeeds on every element succeeds, element by element. -/
theorem mapM_ok_of_forall (f : JSVal → Except Unit JSVal) (R : JSVal → JSVal → Prop)
    (xs : List JSVal) (h : ∀ x ∈ xs, ∃ y, f x = .ok y ∧ R x y) :
    ∃ ys, xs.mapM f = .ok ys ∧ List.Forall₂ R xs ys := by
  induction xs with
  | nil => exact ⟨[], rfl, List.Forall₂.nil⟩
  | cons x rest ih =>
    obtain ⟨y, hy, hr⟩ := h x (List.mem_cons_self _ _)
    obtain ⟨ys, hys, hall⟩ := ih (fun z hz => h z (List.mem_cons_of_mem _ hz))
    refine ⟨y :: ys, ?_, List.Forall₂.cons hr hall⟩
    rw [List.mapM_cons, hy, hys]
    rfl

/-- Mapping a function that fails on the first element fails. -/
theorem mapM_error_of_head (f : JSVal → Except Unit JSVal) (x : JSVal) (rest : List JSVal)
    (h : f x = .error ()) : (x :: rest).mapM f = .error () := by
  rw [List.mapM_cons, h]
  rfl

theorem bundleOption_ok (o : JSVal) (h : o.nullish = false) :
    ∃ r, bundleOption o = .ok r ∧ True := by
  cases o <;> simp [JSVal.nullish] at h <;>
    exact ⟨_, rfl, trivial⟩

theorem configurableOption_ok (o : JSVal) (h : o.nullish = false) :
    ∃ r, configurableOption o = .ok r ∧ True := by
  cases o <;> simp [JSVal.nullish] at h <;>
    exact ⟨_, rfl, trivial⟩

theorem arrayMap_options_ok (f : JSVal → Except Unit JSVal) (opts : List JSVal)
    (hf : ∀ o, o.nullish = false → ∃ r, f o = .ok r ∧ True)
    (h : ∀ o ∈ opts, o.nullish = false) :
    ∃ rs, arrayMap f (.arr opts) = .ok (.arr rs) := by
  obtain ⟨rs, hrs, _⟩ := mapM_ok_of_forall f (fun _ _ => True) opts
    (fun o ho => hf o (h o ho))
  refine ⟨rs, ?_⟩
  simp only [arrayMap]
  rw [hrs]
  rfl

/-- The three shapes of an output item all hold the values of the stored item. -/
theorem itemCorresponds_of_shape (ps ips : List (String × JSVal)) (out : JSVal)
    (himg : (propLookup "product_image" ps).getD JSVal.undefined = JSVal.obj ips)
    (hout : ∃ extra : List (String × JSVal), out = .obj
      ([("prices", .obj [("price", .obj [("value",
          (propLookup "product_price_value" ps).getD JSVal.undefined)])]),
        ("product", .obj [("name", (propLookup "product_name" ps).getD JSVal.undefined),
          ("sku", (propLookup "product_sku" ps).getD JSVal.undefined),
          ("url", (propLookup "product_url" ps).getD JSVal.undefined),
          ("thumbnail", .obj [("url", (propLookup "src" ips).getD JSVal.undefined)])]),
        ("quantity", (propLookup "qty" ps).getD JSVal.undefined)] ++ extra)) :
    itemCorresponds (.obj ps) out := by
  obtain ⟨extra, rfl⟩ := hout
  simp [itemCorresponds, getPath, getProp, propLookup, himg]

/-- The item transformation on an item that carries the five fields and has usable
options. -/
theorem transformItem_ok (item : JSVal) (hc : carriesItemFields item)
    (ho : optionsUsable item) :
    ∃ out, transformItem item = .ok out ∧ itemCorresponds item out := by
  obtain ⟨⟨ps, v1, rfl, -⟩, -, -, -, image, himg, ips, v5, rfl, -⟩ := hc
  have himg1 : (propLookup "product_image" ps).getD JSVal.undefined = JSVal.obj ips := by
    simpa [getProp] using himg
  unfold optionsUsable at ho
  simp only [getProp, Except.ok.injEq, forall_eq'] at ho
  unfold transformItem
  simp only [getProp, bind, Except.bind, pure, Except.pure, himg1]
  by_cases hb : strictEqStr ((propLookup "product_type" ps).getD JSVal.undefined)
      "bundle" = true
  · obtain ⟨opts, hopts, hnn⟩ := ho (Or.inl hb)
    obtain ⟨rs, hrs⟩ := arrayMap_options_ok bundleOption opts bundleOption_ok hnn
    simp only [hb, if_true, hopts, hrs]
    by_cases hcf : strictEqStr ((propLookup "product_type" ps).getD JSVal.undefined)
        "configurable" = true
    · obtain ⟨cs, hcs⟩ :=
        arrayMap_options_ok configurableOption opts configurableOption_ok hnn
      simp only [hcf, if_true, hcs, JSVal.truthy]
      exact ⟨_, rfl, itemCorresponds_of_shape ps ips _ himg1
        ⟨[("bundle_options", .arr rs)], by simp [propSet]⟩⟩
    · simp only [hcf, if_false, Bool.false_eq_true, JSVal.truthy, if_true]
      exact ⟨_, rfl, itemCorresponds_of_shape ps ips _ himg1
        ⟨[("bundle_options", .arr rs)], by simp [propSet]⟩⟩
  · simp only [hb, if_false, Bool.false_eq_true]
    by_cases hcf : strictEqStr ((propLookup "product_type" ps).getD JSVal.undefined)
        "configurable" = true
    · obtain ⟨opts, hopts, hnn⟩ := ho (Or.inr hcf)
      obtain ⟨cs, hcs⟩ :=
        arrayMap_options_ok configurableOption opts configurableOption_ok hnn
      simp only [hcf, if_true, hopts, hcs, JSVal.truthy, if_false, Bool.false_eq_true]
      exact ⟨_, rfl, itemCorresponds_of_shape ps ips _ himg1
        ⟨[("configurable_options", .arr cs)], by simp [propSet]⟩⟩
    · simp only [hcf, if_false, Bool.false_eq_true, JSVal.truthy]
      exact ⟨_, rfl, itemCorresponds_of_shape ps ips _ himg1 ⟨[], by simp⟩⟩

/-- Claim C12 fails as stated, in two ways. First: an item of type `bundle` that carries
the five fields and has no `options` array makes `transformCart` throw. Second: on the
scenario of the specification the output item holds the sku, the name, the unit price
and the thumbnail at `product.sku`, `product.name`, `prices.price.value` and
`product.thumbnail.url`; it has no property `sku`, `name`, `unit_price` or
`thumbnail_url`. -/
theorem transformCart_scenario_shape :
    carriesItemFields bundleItemWithoutOptions
      ∧ transformCart (.obj [("summary_count", .num 1),
          ("items", .arr [bundleItemWithoutOptions])]) = .error ()
      ∧ transformCart (widgetSection 3) = .ok (widgetOutput 3)
      ∧ getProp (widgetOutputItem 3) "sku" = .ok .undefined
      ∧ getProp (widgetOutputItem 3) "name" = .ok .undefined
      ∧ getProp (widgetOutputItem 3) "unit_price" = .ok .undefined
      ∧ getProp (widgetOutputItem 3) "thumbnail_url" = .ok .undefined := by
  refine ⟨⟨⟨_, _, rfl, rfl⟩, ⟨_, _, rfl, rfl⟩, ⟨_, _, rfl, rfl⟩, ⟨_, _, rfl, rfl⟩,
    _, rfl, _, _, rfl, rfl⟩, rfl, rfl, rfl, rfl, rfl, rfl⟩

/-- Claim C12, amended. For every local-cache cart section whose `items` is an array of
items that each carry `product_sku`, `product_name`, `qty`, `product_price_value` and
`product_image.src`, and that have an `options` array without `null` entries when their
`product_type` is `bundle` or `configurable`, `transformCart` yields a cart whose
`total_quantity` equals `summary_count` and whose items correspond one to one to the
input items, in the same order, each output item having `product.sku` = `product_sku`,
`product.name` = `product_name`, `quantity` = `qty`, `prices.price.value` =
`product_price_value` and `product.thumbnail.url` = `product_image.src`. -/
theorem transformCart_fields (c : JSVal) (items : List JSVal)
    (hitems : getProp c "items" = .ok (.arr items))
    (hcarry : ∀ item ∈ items, carriesItemFields item)
    (hopts : ∀ item ∈ items, optionsUsable item) :
    ∃ out outs, transformCart c = .ok out
      ∧ getProp out "total_quantity" = getProp c "summary_count"
      ∧ getProp out "items" = .ok (.arr outs)
      ∧ List.Forall₂ itemCorresponds items outs := by
  obtain ⟨outs, houts, hall⟩ := mapM_ok_of_forall transformItem itemCorresponds items
    (fun item hm => transformItem_ok item (hcarry item hm) (hopts item hm))
  cases c with
  | obj ps =>
    have hlook : (propLookup "items" ps).getD JSVal.undefined = JSVal.arr items := by
      simpa [getProp] using hitems
    refine ⟨.obj [("id", (propLookup "data_id" ps).getD JSVal.undefined),
      ("items", .arr outs),
      ("prices", .obj [("subtotal_excluding_tax", .obj [("value",
        (propLookup "subtotalAmount" ps).getD JSVal.undefined)])]),
      ("total_quantity", (propLookup "summary_count" ps).getD JSVal.undefined)],
      outs, ?_, ?_, ?_, hall⟩
    · unfold transformCart
      simp only [getProp, bind, Except.bind, pure, Except.pure, hlook, arrayMap]
      rw [houts]
      rfl
    · simp [getProp, propLookup]
    · simp [getProp, propLookup]
  | undefined => simp [getProp] at hitems
  | null => simp [getProp] at hitems
  | bool b => simp [getProp] at hitems
  | num q => simp [getProp] at hitems
  | str t => simp [getProp] at hitems
  | arr xs => simp [getProp] at hitems

/-- Witness of the amended C12: the scenario of the specification. -/
theorem transformCart_fields_witness :
    ∃ out outs, transformCart (widgetSection 3) = .ok out
      ∧ getProp out "total_quantity" = getProp (widgetSection 3) "summary_count"
      ∧ getProp out "items" = .ok (.arr outs)
      ∧ List.Forall₂ itemCorresponds [widgetItem 3] outs :=
  transformCart_fields (widgetSection 3) [widgetItem 3] rfl
    (fun item hm => by
      rw [List.mem_singleton.mp hm]
      exact ⟨⟨_, _, rfl, rfl⟩, ⟨_, _, rfl, rfl⟩, ⟨_, _, rfl, rfl⟩, ⟨_, _, rfl, rfl⟩,
        _, rfl, _, _, rfl, rfl⟩)
    (fun item hm => by
      rw [List.mem_singleton.mp hm]
      intro t ht hor
      cases ht
      rcases hor with h | h <;> exact absurd h (by decide))

/-- Every item that `transformItem` yields is an object with the properties `prices`,
`product` and `quantity`, followed by at most one of `bundle_options` and
`configurable_options`. -/
theorem transformItem_shape (item out : JSVal) (h : transformItem item = .ok out) :
    ∃ p q r extra, out = .obj ([("prices", p), ("product", q), ("quantity", r)] ++ extra)
      ∧ (extra = [] ∨ (∃ v, extra = [("bundle_options", v)])
        ∨ (∃ v, extra = [("configurable_options", v)])) := by
  unfold transformItem at h
  simp only [bind, Except.bind, pure, Except.pure] at h
  repeat' split at h
  all_goals cases h
  all_goals first
    | exact ⟨_, _, _, [], rfl, Or.inl rfl⟩
    | exact ⟨_, _, _, [("bundle_options", _)], rfl, Or.inr (Or.inl ⟨_, rfl⟩)⟩
    | exact ⟨_, _, _, [("configurable_options", _)], rfl, Or.inr (Or.inr ⟨_, rfl⟩)⟩

/-- The item transformation throws on every item that it has produced itself: such an
item has no `product_image`. -/
theorem transformItem_of_output (item out : JSVal) (h : transformItem item = .ok out) :
    transformItem out = .error () := by
  obtain ⟨p, q, r, extra, rfl, hex⟩ := transformItem_shape item out h
  rcases hex with rfl | ⟨v, rfl⟩ | ⟨v, rfl⟩ <;> rfl


theorem mapM_cons_ok (f : JSVal → Except Unit JSVal) (x : JSVal) (rest outs : List JSVal)
    (h : (x :: rest).mapM f = .ok outs) :
    ∃ o os, f x = .ok o ∧ outs = o :: os := by
  rw [List.mapM_cons] at h
  cases hf : f x with
  | error e =>
    rw [hf] at h
    cases h
  | ok o =>
    rw [hf] at h
    cases hr : rest.mapM f with
    | error e =>
      rw [hr] at h
      cases h
    | ok os =>
      rw [hr] at h
      cases h
      exact ⟨o, os, rfl, rfl⟩

/-- The cart transformation on a cart of its own making reads `items` only. -/
theorem transformCart_of_cart (id sub cnt : JSVal) (outs : List JSVal) :
    transformCart (.obj [("id", id), ("items", .arr outs), ("prices", sub),
        ("total_quantity", cnt)])
      = (match (outs.mapM transformItem).map JSVal.arr with
        | .error e => .error e
        | .ok v => .ok (.obj [("id", .undefined), ("items", v),
            ("prices", .obj [("subtotal_excluding_tax", .obj [("value", .undefined)])]),
            ("total_quantity", .undefined)])) := by
  unfold transformCart
  simp only [getProp, propLookup, bind, Except.bind, pure, Except.pure, arrayMap,
    String.reduceEq, reduceIte, Option.getD_some, Option.getD_none]
  cases outs.mapM transformItem <;> rfl

/-- Claim C13 fails as stated, in two ways. On the scenario of the specification
`transformCart` succeeds and throws on its own output. On a section without items
whose `summary_count` is 5 it succeeds, and on its own output it yields a cart whose
`total_quantity` is `undefined`, not 5. -/
theorem transformCart_not_idempotent :
    transformCart (widgetSection 3) = .ok (widgetOutput 3)
      ∧ transformCart (widgetOutput 3) = .error ()
      ∧ transformCart emptySection = .ok emptyOutput
      ∧ transformCart emptyOutput = .ok blankCart
      ∧ getProp emptyOutput "total_quantity" = .ok (.num 5)
      ∧ getProp blankCart "total_quantity" = .ok .undefined := by
  refine ⟨rfl, rfl, rfl, rfl, rfl, rfl⟩

/-- Claim C13, amended. For every cart section `x` with the array `items` on which
`transformCart` succeeds, `transformCart(transformCart(x))` throws when `items` is not
empty; when `items` is empty it succeeds and yields the cart with no items whose `id`,
subtotal value and `total_quantity` are `undefined`. -/
theorem transformCart_twice (x out : JSVal) (items : List JSVal)
    (h : transformCart x = .ok out)
    (hitems : getProp x "items" = .ok (.arr items)) :
    transformCart out = (if items.isEmpty then .ok blankCart else .error ()) := by
  cases x with
  | obj ps =>
    have hlook : (propLookup "items" ps).getD JSVal.undefined = JSVal.arr items := by
      simpa [getProp] using hitems
    unfold transformCart at h
    simp only [getProp, bind, Except.bind, pure, Except.pure, hlook, arrayMap] at h
    cases hm : items.mapM transformItem with
    | error e =>
      rw [hm] at h
      cases h
    | ok outs =>
      rw [hm] at h
      cases h
      cases items with
      | nil =>
        cases hm
        rfl
      | cons i rest =>
        obtain ⟨o, os, ho, rfl⟩ := mapM_cons_ok transformItem i rest outs hm
        have hfail := mapM_error_of_head transformItem o os
          (transformItem_of_output i o ho)
        rw [transformCart_of_cart, hfail]
        rfl
  | undefined => simp [getProp] at hitems
  | null => simp [getProp] at hitems
  | bool b => simp [getProp] at hitems
  | num q => simp [getProp] at hitems
  | str t => simp [getProp] at hitems
  | arr xs => simp [getProp] at hitems

/-- Witness of the amended C13: the scenario of the specification, on whose output
`transformCart` throws. -/
theorem transformCart_twice_witness :
    transformCart (widgetOutput 3)
      = (if [widgetItem 3].isEmpty then .ok blankCart else .error ()) :=
  transformCart_twice (widgetSection 3) (widgetOutput 3) [widgetItem 3] rfl rfl


/-! ### resolveSessionCartDrift -/

/-- Claim C14. When the commerce state is pristine, as `isCommerceStatePristine` tells
(no cache blob, no invalidation map, no timeout key, no freshness cookie), and
`options.force` is not set, `resolveSessionCartDrift` returns at once, without throwing,
in the world in which it was called: no section request is issued, local storage and
the cookie string are not written, no storage event is dispatched and no subscriber is
notified. -/
theorem resolveSessionCartDrift_pristine (throwsOn : Nat → JSVal → Bool) (P : Platform)
    (now : Int) (o : DriftOptions) (resp : FetchOutcome) (w : World)
    (hp : isCommerceStatePristine w = true) (hf : o.force = false) :
    resolveSessionCartDrift throwsOn P now (some o) resp w = .ok w := by
  have hguard : (isCommerceStatePristine w && !o.force) = true := by
    rw [hp, hf]
    rfl
  unfold resolveSessionCartDrift
  simp only [hguard, if_true]

/-- Witness of C14, the scenario of the specification: a fresh browser with no cookie
and nothing stored, `force` not set. The fetch would have succeeded; it is not
requested. -/
theorem resolveSessionCartDrift_pristine_witness :
    resolveSessionCartDrift quietCallbacks samplePlatform 0
        (some { waitForCart := true, force := false })
        (.response true (some (.obj cartResponse))) emptyWorld = .ok emptyWorld :=
  resolveSessionCartDrift_pristine quietCallbacks samplePlatform 0
    { waitForCart := true, force := false }
    (.response true (some (.obj cartResponse))) emptyWorld (by decide) rfl

end LumaBridge
